import Mathlib

/-!
Verification of the Versal-Net eFuse controller driver
(`lib/sw_services/xilnvm/src/versal_net/server/xnvm_efuse.c`).

The driver is shallowly embedded: hardware interaction is modelled by
explicit oracle inputs.  The result of `Xil_WaitForEvents` is an
`Option Nat` (`none` models a timeout, `some mask` models a successful
wait returning the fired event mask), register reads are functions from
byte offsets to 32-bit words, and the statuses of collaborator routines
implemented in other files of the driver (`XNvm_EfuseSetupController`,
the validation helpers, the close sub-steps) are parameters of the
embedded entry points.  Machine words are `Nat` with an explicit
`% 2 ^ 32` where the hardware reads 32-bit registers.
-/

/-- Status code `XST_SUCCESS` from `xstatus.h`. -/
def XST_SUCCESS : Nat := 0

/-- Status code `XST_FAILURE` from `xstatus.h`. -/
def XST_FAILURE : Nat := 1

/-- Modelled from the spec: the numeric values of the `XNvm_EfuseErr`
status codes live in `xnvm_efuse.h`, which is not part of this snapshot
(only `xnvm_efuse.c` is).  The spec requires a taxonomy of distinct,
OR-composable codes; the placeholder values below are distinct and
non-zero, and no theorem depends on anything beyond that. -/
def XNVM_EFUSE_ERR_INVALID_PARAM : Nat := 0x02

/-- Modelled from the spec: read-timeout status code (header absent). -/
def XNVM_EFUSE_ERR_RD_TIMEOUT : Nat := 0x22

/-- Modelled from the spec: program-timeout status code (header absent). -/
def XNVM_EFUSE_ERR_PGM_TIMEOUT : Nat := 0x43

/-- Modelled from the spec: program-failed status code (header absent). -/
def XNVM_EFUSE_ERR_PGM : Nat := 0x44

/-- Modelled from the spec: verify-failed status code (header absent). -/
def XNVM_EFUSE_ERR_PGM_VERIFY : Nat := 0x45

/-- Modelled from the spec: cache-parity status code (header absent). -/
def XNVM_EFUSE_ERR_CACHE_PARITY : Nat := 0x54

/-- Modelled from the spec: glitch-detected status code (header absent). -/
def XNVM_EFUSE_ERR_GLITCH_DETECTED : Nat := 0x87

/-- Modelled from the spec: stage tag OR-ed into a status when a failure
happens before programming (header absent). -/
def XNVM_EFUSE_ERR_BEFORE_PROGRAMMING : Nat := 0x80000000

/-- Modelled from the spec: field tag for AES-key write failures
(header absent). -/
def XNVM_EFUSE_ERR_WRITE_AES_KEY : Nat := 0x8000

/-- Modelled from the spec: field tag for revocation-id write failures
(header absent). -/
def XNVM_EFUSE_ERR_WRITE_REVOCATION_IDS : Nat := 0x8600

/-- Modelled from the spec: eFuse page enumerator `XNVM_EFUSE_PAGE_0`. -/
def XNVM_EFUSE_PAGE_0 : Nat := 0

/-- Modelled from the spec: eFuse page enumerator `XNVM_EFUSE_PAGE_1`. -/
def XNVM_EFUSE_PAGE_1 : Nat := 1

/-- Modelled from the spec: eFuse page enumerator `XNVM_EFUSE_PAGE_2`. -/
def XNVM_EFUSE_PAGE_2 : Nat := 2

/-- Modelled from the spec: ISR bit masks have distinct `PGM_DONE`,
`PGM_ERROR` and `RD_DONE` bits, each independently clearable
(`xnvm_efuse_hw.h` is absent from the snapshot). -/
def XNVM_EFUSE_ISR_PGM_DONE : Nat := 1

/-- Modelled from the spec: program-error event bit of the ISR register. -/
def XNVM_EFUSE_ISR_PGM_ERROR : Nat := 2

/-- Modelled from the spec: read-done event bit of the ISR register. -/
def XNVM_EFUSE_ISR_RD_DONE : Nat := 4

/-- Modelled from the spec: cache-parity error flag of the ISR register. -/
def XNVM_EFUSE_ISR_CACHE_ERROR : Nat := 32

/-- Modelled from the spec: bit position of the column field in the packed
program address (`[Page:bits][Row:bits][Col:bits]`, header absent). -/
def XNVM_EFUSE_ADDR_COLUMN_SHIFT : Nat := 0

/-- Modelled from the spec: bit position of the row field in the packed
program address (header absent). -/
def XNVM_EFUSE_ADDR_ROW_SHIFT : Nat := 5

/-- Modelled from the spec: bit position of the page field in the packed
program address (header absent). -/
def XNVM_EFUSE_ADDR_PAGE_SHIFT : Nat := 13

/-- Constant `XNVM_EFUSE_BITS_IN_A_BYTE` from `xnvm_efuse.c`. -/
def XNVM_EFUSE_BITS_IN_A_BYTE : Nat := 8

/-- Modelled from the spec: a fuse row holds 32 bits
(`XNVM_EFUSE_MAX_BITS_IN_ROW`, header absent). -/
def XNVM_EFUSE_MAX_BITS_IN_ROW : Nat := 32

/-- Modelled from the spec: cache offsets advance one 32-bit word, i.e.
4 bytes, at a time (`XNVM_WORD_LEN`, header absent). -/
def XNVM_WORD_LEN : Nat := 4

/-- Constant `XNVM_EFUSE_MAX_FIPS_VERSION` from `xnvm_efuse.c`. -/
def XNVM_EFUSE_MAX_FIPS_VERSION : Nat := 7

/-- Constant `XNVM_EFUSE_MAX_FIPS_MODE` from `xnvm_efuse.c`. -/
def XNVM_EFUSE_MAX_FIPS_MODE : Nat := 0xFF

/-- Constant `XNVM_EFUSE_PROGRAM_VERIFY` from `xnvm_efuse.c`. -/
def XNVM_EFUSE_PROGRAM_VERIFY : Nat := 0

/-- Constant `XNVM_EFUSE_SKIP_VERIFY` from `xnvm_efuse.c`. -/
def XNVM_EFUSE_SKIP_VERIFY : Nat := 1

/-!  Bit primitive: `XNvm_EfusePgmBit` (xnvm_efuse.c:2309) and
`XNvm_EfuseVerifyBit` (xnvm_efuse.c:2359).  -/

/-- Observable effects of one `XNvm_EfusePgmBit` call: the packed address
written to the program-address register, the returned status, and the
mask written to the ISR register on exit. -/
structure PgmBitTrace where
  addrWritten : Nat
  status : Nat
  isrCleared : Nat
  deriving Repr, DecidableEq

/-- Embedding of `XNvm_EfusePgmBit` (xnvm_efuse.c:2309-2342).  The
`waitOut` oracle is the outcome of `Xil_WaitForEvents`: `none` is a
timeout, `some mask` is success with `mask` the fired events. -/
def XNvm_EfusePgmBit (Page Row Col : Nat) (waitOut : Option Nat) : PgmBitTrace :=
  let PgmAddr := (Page <<< XNVM_EFUSE_ADDR_PAGE_SHIFT) |||
    (Row <<< XNVM_EFUSE_ADDR_ROW_SHIFT) ||| (Col <<< XNVM_EFUSE_ADDR_COLUMN_SHIFT)
  let Status :=
    match waitOut with
    | none => XNVM_EFUSE_ERR_PGM_TIMEOUT
    | some EventMask =>
      if EventMask &&& XNVM_EFUSE_ISR_PGM_ERROR = XNVM_EFUSE_ISR_PGM_ERROR then
        XNVM_EFUSE_ERR_PGM
      else
        XST_SUCCESS
  { addrWritten := PgmAddr, status := Status,
    isrCleared := XNVM_EFUSE_ISR_PGM_DONE ||| XNVM_EFUSE_ISR_PGM_ERROR }

/-- Observable effects of one `XNvm_EfuseVerifyBit` call. -/
structure VerifyBitTrace where
  rdAddrWritten : Nat
  status : Nat
  isrCleared : Nat
  deriving Repr, DecidableEq

/-- Embedding of `XNvm_EfuseVerifyBit` (xnvm_efuse.c:2359-2401).  The
`waitOut` oracle is the outcome of `Xil_WaitForEvents`, and `rdData` is
the value the read-data register holds when consulted. -/
def XNvm_EfuseVerifyBit (Page Row Col : Nat) (waitOut : Option Nat)
    (rdData : Nat) : VerifyBitTrace :=
  let RdAddr := (Page <<< XNVM_EFUSE_ADDR_PAGE_SHIFT) |||
    (Row <<< XNVM_EFUSE_ADDR_ROW_SHIFT)
  let Status :=
    match waitOut with
    | none => XNVM_EFUSE_ERR_RD_TIMEOUT
    | some EventMask =>
      if EventMask &&& XNVM_EFUSE_ISR_RD_DONE = XNVM_EFUSE_ISR_RD_DONE then
        if rdData &&& (1 <<< Col) ≠ 0 then XST_SUCCESS else XST_FAILURE
      else
        XNVM_EFUSE_ERR_PGM_VERIFY
  { rdAddrWritten := RdAddr, status := Status,
    isrCleared := XNVM_EFUSE_ISR_RD_DONE }

/-- Claim C6: `XNvm_EfusePgmBit` writes the packed address
`page<<P | row<<R | col<<C` to the program-address register, returns the
timeout error if neither program-done nor program-error fires, the
program-failed error if the error event fires, and success otherwise;
these three outcomes are pairwise distinct, and on every outcome the
done/error event bits are cleared in the ISR register before returning. -/
theorem XNvm_EfusePgmBit_outcomes (Page Row Col : Nat) (waitOut : Option Nat) :
    (XNvm_EfusePgmBit Page Row Col waitOut).addrWritten =
      ((Page <<< XNVM_EFUSE_ADDR_PAGE_SHIFT) |||
        (Row <<< XNVM_EFUSE_ADDR_ROW_SHIFT) |||
        (Col <<< XNVM_EFUSE_ADDR_COLUMN_SHIFT)) ∧
    (waitOut = none →
      (XNvm_EfusePgmBit Page Row Col waitOut).status = XNVM_EFUSE_ERR_PGM_TIMEOUT) ∧
    (∀ m, waitOut = some m →
      m &&& XNVM_EFUSE_ISR_PGM_ERROR = XNVM_EFUSE_ISR_PGM_ERROR →
      (XNvm_EfusePgmBit Page Row Col waitOut).status = XNVM_EFUSE_ERR_PGM) ∧
    (∀ m, waitOut = some m →
      m &&& XNVM_EFUSE_ISR_PGM_ERROR ≠ XNVM_EFUSE_ISR_PGM_ERROR →
      (XNvm_EfusePgmBit Page Row Col waitOut).status = XST_SUCCESS) ∧
    (XNVM_EFUSE_ERR_PGM_TIMEOUT ≠ XNVM_EFUSE_ERR_PGM ∧
      XNVM_EFUSE_ERR_PGM_TIMEOUT ≠ XST_SUCCESS ∧
      XNVM_EFUSE_ERR_PGM ≠ XST_SUCCESS) ∧
    (XNvm_EfusePgmBit Page Row Col waitOut).isrCleared =
      (XNVM_EFUSE_ISR_PGM_DONE ||| XNVM_EFUSE_ISR_PGM_ERROR) := by
  refine ⟨rfl, ?_, ?_, ?_, by decide, rfl⟩
  · intro h
    subst h
    rfl
  · intro m h hm
    subst h
    simp [XNvm_EfusePgmBit, hm]
  · intro m h hm
    subst h
    simp [XNvm_EfusePgmBit, hm]

/-- Witness for C6: with an event mask in which the program-error event
fired, `XNvm_EfusePgmBit` returns the program-failed error. -/
theorem XNvm_EfusePgmBit_outcomes_witness :
    (XNvm_EfusePgmBit 2 10 5 (some XNVM_EFUSE_ISR_PGM_ERROR)).status =
      XNVM_EFUSE_ERR_PGM :=
  (XNvm_EfusePgmBit_outcomes 2 10 5 (some XNVM_EFUSE_ISR_PGM_ERROR)).2.2.1
    XNVM_EFUSE_ISR_PGM_ERROR rfl (by decide)

/-- Claim C7: `XNvm_EfuseVerifyBit` returns success when bit `col` of the
read-data register is set, a failure status distinct from both success
and the read-timeout status when that bit is clear, and the read-timeout
status when the read-done event does not fire; and it clears the
read-done event bit regardless of the outcome. -/
theorem XNvm_EfuseVerifyBit_outcomes (Page Row Col : Nat) (waitOut : Option Nat)
    (rdData : Nat) :
    (waitOut = none →
      (XNvm_EfuseVerifyBit Page Row Col waitOut rdData).status =
        XNVM_EFUSE_ERR_RD_TIMEOUT) ∧
    (∀ m, waitOut = some m →
      m &&& XNVM_EFUSE_ISR_RD_DONE = XNVM_EFUSE_ISR_RD_DONE →
      rdData &&& (1 <<< Col) ≠ 0 →
      (XNvm_EfuseVerifyBit Page Row Col waitOut rdData).status = XST_SUCCESS) ∧
    (∀ m, waitOut = some m →
      m &&& XNVM_EFUSE_ISR_RD_DONE = XNVM_EFUSE_ISR_RD_DONE →
      rdData &&& (1 <<< Col) = 0 →
      (XNvm_EfuseVerifyBit Page Row Col waitOut rdData).status = XST_FAILURE) ∧
    (XST_FAILURE ≠ XST_SUCCESS ∧ XST_FAILURE ≠ XNVM_EFUSE_ERR_RD_TIMEOUT) ∧
    (XNvm_EfuseVerifyBit Page Row Col waitOut rdData).isrCleared =
      XNVM_EFUSE_ISR_RD_DONE := by
  refine ⟨?_, ?_, ?_, by decide, rfl⟩
  · intro h
    subst h
    rfl
  · intro m h hm hbit
    subst h
    simp [XNvm_EfuseVerifyBit, hm, hbit]
  · intro m h hm hbit
    subst h
    simp [XNvm_EfuseVerifyBit, hm, hbit]

/-- Witness for C7: with the read-done event fired and a read-data value
whose bit 5 is clear, `XNvm_EfuseVerifyBit` returns the bit-not-set
failure status. -/
theorem XNvm_EfuseVerifyBit_outcomes_witness :
    (XNvm_EfuseVerifyBit 0 7 5 (some XNVM_EFUSE_ISR_RD_DONE) 0xF).status =
      XST_FAILURE :=
  (XNvm_EfuseVerifyBit_outcomes 0 7 5 (some XNVM_EFUSE_ISR_RD_DONE) 0xF).2.2.1
    XNVM_EFUSE_ISR_RD_DONE rfl (by decide) (by decide)

/-!  Programmable-bits calculator: `XNvm_EfuseComputeProgrammableBits`
(xnvm_efuse.c:2180-2215).  -/

/-- Complement of a value read from a 32-bit register, as computed by the
C expression `~ReadReg` on a `u32`. -/
def u32Not (x : Nat) : Nat := (x % 2 ^ 32) ^^^ (2 ^ 32 - 1)

/-- Register state consulted by the programmable-bits calculator: the ISR
register of the controller and the memory-mapped cache image, addressed
by byte offset (a read returns the low 32 bits held there). -/
structure CpbEnv where
  isr : Nat
  cache : Nat → Nat

/-- Result of `XNvm_EfuseComputeProgrammableBits`: the returned status,
the final contents of the `PrgmData` buffer (word-indexed), and the list
of cache offsets that were read while diffing. -/
structure CpbResult where
  status : Nat
  prgm : Nat → Nat
  reads : List Nat

/-- Loop body of `XNvm_EfuseComputeProgrammableBits`
(xnvm_efuse.c:2202-2209): walk `Offset` from `StartOffset` to
`EndOffset` in `XNVM_WORD_LEN` steps, writing
`PrgmData[(Offset-StartOffset)/XNVM_WORD_LEN] = ~cache[Offset] & ReqData[...]`. -/
def XNvm_EfuseCpbLoop (env : CpbEnv) (req : Nat → Nat) (startOff endOff : Nat)
    (offset : Nat) (prgm : Nat → Nat) (reads : List Nat) :
    (Nat → Nat) × List Nat :=
  if offset ≤ endOff then
    XNvm_EfuseCpbLoop env req startOff endOff (offset + XNVM_WORD_LEN)
      (Function.update prgm ((offset - startOff) / XNVM_WORD_LEN)
        (u32Not (env.cache offset % 2 ^ 32) &&&
          req ((offset - startOff) / XNVM_WORD_LEN)))
      (reads ++ [offset])
  else
    (prgm, reads)
termination_by endOff + 1 - offset
decreasing_by simp [XNVM_WORD_LEN]; omega

/-- Embedding of `XNvm_EfuseComputeProgrammableBits`
(xnvm_efuse.c:2180-2215).  Null buffers are modelled by `none`; the
`prgm` component of the result is the (possibly updated) output buffer,
defaulting to its input contents when no computation happens. -/
def XNvm_EfuseComputeProgrammableBits (ReqData : Option (Nat → Nat))
    (PrgmData : Option (Nat → Nat)) (StartOffset EndOffset : Nat)
    (env : CpbEnv) : CpbResult :=
  match ReqData, PrgmData with
  | some req, some prgm =>
    if env.isr &&& XNVM_EFUSE_ISR_CACHE_ERROR = XNVM_EFUSE_ISR_CACHE_ERROR then
      { status := XNVM_EFUSE_ERR_CACHE_PARITY, prgm := prgm, reads := [] }
    else
      { status := XST_SUCCESS,
        prgm := (XNvm_EfuseCpbLoop env req StartOffset EndOffset StartOffset prgm []).1,
        reads := (XNvm_EfuseCpbLoop env req StartOffset EndOffset StartOffset prgm []).2 }
  | _, _ =>
    { status := XNVM_EFUSE_ERR_INVALID_PARAM,
      prgm := fun i => (PrgmData.getD (fun _ => 0)) i, reads := [] }

/-- Characterization of the diff loop: starting at `startOff + 4 * j`,
every word index `k ≥ j` whose offset lies in the range receives the
diffed value, and all other entries of the buffer are untouched. -/
theorem XNvm_EfuseCpbLoop_prgm (env : CpbEnv) (req : Nat → Nat)
    (startOff endOff : Nat) :
    ∀ j prgm reads k,
      (XNvm_EfuseCpbLoop env req startOff endOff (startOff + 4 * j) prgm reads).1 k =
        if j ≤ k ∧ startOff + 4 * k ≤ endOff then
          u32Not (env.cache (startOff + 4 * k) % 2 ^ 32) &&& req k
        else
          prgm k := by
  suffices h : ∀ fuel j, endOff + 1 - (startOff + 4 * j) ≤ fuel →
      ∀ prgm reads k,
        (XNvm_EfuseCpbLoop env req startOff endOff (startOff + 4 * j) prgm reads).1 k =
          if j ≤ k ∧ startOff + 4 * k ≤ endOff then
            u32Not (env.cache (startOff + 4 * k) % 2 ^ 32) &&& req k
          else
            prgm k by
    intro j prgm reads k
    exact h (endOff + 1 - (startOff + 4 * j)) j (le_refl _) prgm reads k
  intro fuel
  induction fuel with
  | zero =>
    intro j hj prgm reads k
    have hle : ¬ (startOff + 4 * j ≤ endOff) := by omega
    rw [XNvm_EfuseCpbLoop, if_neg hle, if_neg (by omega)]
  | succ fuel ih =>
    intro j hj prgm reads k
    rw [XNvm_EfuseCpbLoop]
    by_cases hle : startOff + 4 * j ≤ endOff
    · rw [if_pos hle]
      have hstep : startOff + 4 * j + XNVM_WORD_LEN = startOff + 4 * (j + 1) := by
        simp only [XNVM_WORD_LEN]; omega
      have hidx : (startOff + 4 * j - startOff) / XNVM_WORD_LEN = j := by
        simp only [XNVM_WORD_LEN]; omega
      rw [hstep, hidx]
      rw [ih (j + 1) (by omega)]
      by_cases hk : j + 1 ≤ k ∧ startOff + 4 * k ≤ endOff
      · rw [if_pos hk, if_pos ⟨by omega, hk.2⟩]
      · rw [if_neg hk]
        by_cases hkj : k = j
        · subst hkj
          rw [if_pos ⟨le_refl k, hle⟩, Function.update_same]
        · rw [Function.update_noteq hkj, if_neg (by omega)]
    · rw [if_neg hle, if_neg (by omega)]

/-- Nat-level fact: a 32-bit value and its 32-bit complement share no set
bit, so the diffed output never re-requests an already-burned fuse. -/
theorem u32Not_and_self (c q : Nat) (hc32 : c < 2 ^ 32) :
    (u32Not c &&& q) &&& c = 0 := by
  apply Nat.eq_of_testBit_eq
  intro i
  simp only [Nat.testBit_and, Nat.zero_testBit]
  by_cases hc : c.testBit i = true
  · have hlt : i < 32 := by
      by_contra hge
      have hx : c < 2 ^ i :=
        lt_of_lt_of_le hc32 (Nat.pow_le_pow_right (by norm_num) (by omega))
      rw [Nat.testBit_lt_two_pow hx] at hc
      exact Bool.false_ne_true hc
    have hnot : (u32Not c).testBit i = false := by
      rw [u32Not, Nat.mod_eq_of_lt hc32, Nat.testBit_xor, hc,
        Nat.testBit_two_pow_sub_one]
      simp [hlt]
    simp [hnot]
  · simp only [Bool.not_eq_true] at hc
    simp [hc]

/-- Claim C1: with non-null buffers and the ISR cache-error flag clear,
`XNvm_EfuseComputeProgrammableBits` succeeds and sets, for every
32-bit-aligned offset `StartOffset + 4*k` in `[StartOffset, EndOffset]`,
output word `k` to `~cacheWord & requested[k]`; consequently no bit
already set in the cache word is included in the output word. -/
theorem XNvm_EfuseComputeProgrammableBits_diff (req prgm : Nat → Nat)
    (StartOffset EndOffset : Nat) (env : CpbEnv)
    (hisr : env.isr &&& XNVM_EFUSE_ISR_CACHE_ERROR ≠ XNVM_EFUSE_ISR_CACHE_ERROR) :
    (XNvm_EfuseComputeProgrammableBits (some req) (some prgm)
      StartOffset EndOffset env).status = XST_SUCCESS ∧
    (∀ k, StartOffset + 4 * k ≤ EndOffset →
      (XNvm_EfuseComputeProgrammableBits (some req) (some prgm)
        StartOffset EndOffset env).prgm k =
        u32Not (env.cache (StartOffset + 4 * k) % 2 ^ 32) &&& req k ∧
      ((XNvm_EfuseComputeProgrammableBits (some req) (some prgm)
        StartOffset EndOffset env).prgm k) &&&
          (env.cache (StartOffset + 4 * k) % 2 ^ 32) = 0) := by
  constructor
  · simp [XNvm_EfuseComputeProgrammableBits, hisr]
  · intro k hk
    have hloop := XNvm_EfuseCpbLoop_prgm env req StartOffset EndOffset 0 prgm [] k
    simp only [Nat.mul_zero, Nat.add_zero] at hloop
    have hprgm : (XNvm_EfuseComputeProgrammableBits (some req) (some prgm)
        StartOffset EndOffset env).prgm k =
        u32Not (env.cache (StartOffset + 4 * k) % 2 ^ 32) &&& req k := by
      simp only [XNvm_EfuseComputeProgrammableBits, if_neg hisr]
      rw [hloop, if_pos ⟨Nat.zero_le k, hk⟩]
    exact ⟨hprgm, by
      rw [hprgm]
      exact u32Not_and_self _ _ (Nat.mod_lt _ (by norm_num))⟩

/-- Witness for C1: at a single-word range with cache word `0xFFFF0000`,
requesting `0x0000FFFF` yields output `0x0000FFFF`, requesting
`0xFFFF0000` yields `0x00000000`, and both outputs share no set bit with
the cache word. -/
theorem XNvm_EfuseComputeProgrammableBits_diff_witness :
    (XNvm_EfuseComputeProgrammableBits (some fun _ => 0x0000FFFF)
      (some fun _ => 0) 0 0 ⟨0, fun _ => 0xFFFF0000⟩).prgm 0 = 0x0000FFFF ∧
    (XNvm_EfuseComputeProgrammableBits (some fun _ => 0xFFFF0000)
      (some fun _ => 0) 0 0 ⟨0, fun _ => 0xFFFF0000⟩).prgm 0 = 0x00000000 := by
  have h1 := (XNvm_EfuseComputeProgrammableBits_diff (fun _ => 0x0000FFFF)
    (fun _ => 0) 0 0 ⟨0, fun _ => 0xFFFF0000⟩ (by decide)).2 0 (by decide)
  have h2 := (XNvm_EfuseComputeProgrammableBits_diff (fun _ => 0xFFFF0000)
    (fun _ => 0) 0 0 ⟨0, fun _ => 0xFFFF0000⟩ (by decide)).2 0 (by decide)
  exact ⟨by rw [h1.1]; decide, by rw [h2.1]; decide⟩

/-- Claim C5: whenever the ISR cache-error flag is set (buffers non-null),
`XNvm_EfuseComputeProgrammableBits` returns the cache-parity error, the
output buffer is completely unchanged, and no cache word is read. -/
theorem XNvm_EfuseComputeProgrammableBits_cacheParity (req prgm : Nat → Nat)
    (StartOffset EndOffset : Nat) (env : CpbEnv)
    (hisr : env.isr &&& XNVM_EFUSE_ISR_CACHE_ERROR = XNVM_EFUSE_ISR_CACHE_ERROR) :
    (XNvm_EfuseComputeProgrammableBits (some req) (some prgm)
      StartOffset EndOffset env).status = XNVM_EFUSE_ERR_CACHE_PARITY ∧
    (∀ i, (XNvm_EfuseComputeProgrammableBits (some req) (some prgm)
      StartOffset EndOffset env).prgm i = prgm i) ∧
    (XNvm_EfuseComputeProgrammableBits (some req) (some prgm)
      StartOffset EndOffset env).reads = [] := by
  refine ⟨?_, ?_, ?_⟩ <;> simp [XNvm_EfuseComputeProgrammableBits, hisr]

/-- Witness for C5: with the cache-error flag raised the calculator
reports the cache-parity error, leaves the output buffer word 3 at its
initial value 7, and reads no cache offset. -/
theorem XNvm_EfuseComputeProgrammableBits_cacheParity_witness :
    (XNvm_EfuseComputeProgrammableBits (some fun _ => 0xFF) (some fun _ => 7)
      0 16 ⟨XNVM_EFUSE_ISR_CACHE_ERROR, fun _ => 0⟩).status =
        XNVM_EFUSE_ERR_CACHE_PARITY ∧
    (XNvm_EfuseComputeProgrammableBits (some fun _ => 0xFF) (some fun _ => 7)
      0 16 ⟨XNVM_EFUSE_ISR_CACHE_ERROR, fun _ => 0⟩).prgm 3 = 7 ∧
    (XNvm_EfuseComputeProgrammableBits (some fun _ => 0xFF) (some fun _ => 7)
      0 16 ⟨XNVM_EFUSE_ISR_CACHE_ERROR, fun _ => 0⟩).reads = [] := by
  have h := XNvm_EfuseComputeProgrammableBits_cacheParity (fun _ => 0xFF)
    (fun _ => 7) 0 16 ⟨XNVM_EFUSE_ISR_CACHE_ERROR, fun _ => 0⟩ (by decide)
  exact ⟨h.1, h.2.1 3, h.2.2⟩

/-!  Row/range programmer: `XNvm_EfusePgmAndVerifyData`
(xnvm_efuse.c:2235-2294).  -/

/-- Structure `XNvm_EfusePrgmInfo` from xnvm_efuse.c:35-42. -/
structure XNvm_EfusePrgmInfo where
  StartRow : Nat
  ColStart : Nat
  ColEnd : Nat
  NumOfRows : Nat
  SkipVerify : Nat
  EfuseType : Nat

/-- Loop state of the range walk: the data-word cursor (`DataPtr` offset,
intra-word bit index `Idx` and current shifted word `Data` of the C
code), together with the trace of visited `(Row, Col)` positions and of
the data bits examined at them, in walk order. -/
structure WalkSt where
  wordIdx : Nat
  idx : Nat
  cur : Nat
  visits : List (Nat × Nat)
  bits : List Nat

/-- Cursor advancement after one bit is consumed
(xnvm_efuse.c:2272-2280): `Col++/Idx++`, and when `Idx` reaches
`XNVM_EFUSE_MAX_BITS_IN_ROW` the data pointer moves to the next source
word and `Idx` resets, otherwise the current word shifts right by one. -/
def XNvm_EfuseDataCursorAdvance (data : Nat → Nat) (s : WalkSt) : WalkSt :=
  if s.idx + 1 = XNVM_EFUSE_MAX_BITS_IN_ROW then
    { s with wordIdx := s.wordIdx + 1, idx := 0, cur := data (s.wordIdx + 1) }
  else
    { s with idx := s.idx + 1, cur := s.cur >>> 1 }

/-- Inner column loop of `XNvm_EfusePgmAndVerifyData`
(xnvm_efuse.c:2262-2281): visit each `Col` from the current one to
`ColEnd`, invoke the per-bit program/verify primitive when the current
data bit is set (its status given by the `bitRes` oracle), abort with
that status on failure, and advance the data cursor after every bit. -/
def XNvm_EfuseColLoop (bitRes : Nat → Nat → Nat) (data : Nat → Nat)
    (colEnd Row : Nat) (col : Nat) (s : WalkSt) : Except Nat WalkSt :=
  if col ≤ colEnd then
    if s.cur &&& 1 ≠ 0 ∧ bitRes Row col ≠ XST_SUCCESS then
      Except.error (bitRes Row col)
    else
      XNvm_EfuseColLoop bitRes data colEnd Row (col + 1)
        (XNvm_EfuseDataCursorAdvance data
          { s with visits := s.visits ++ [(Row, col)],
                   bits := s.bits ++ [s.cur &&& 1] })
  else
    Except.ok s
termination_by colEnd + 1 - col

/-- Result of the range walk: final status, the final value of the `Row`
cursor, and the final loop state with its traces. -/
structure WalkResult where
  status : Nat
  finalRow : Nat
  st : WalkSt

/-- Outer row loop of `XNvm_EfusePgmAndVerifyData`
(xnvm_efuse.c:2259-2290), including the defensive `Row != EndRow`
glitch check performed after the loop exits. -/
def XNvm_EfuseRowLoop (bitRes : Nat → Nat → Nat) (data : Nat → Nat)
    (ColStart ColEnd EndRow : Nat) (Row : Nat) (s : WalkSt) : WalkResult :=
  if Row < EndRow then
    match XNvm_EfuseColLoop bitRes data ColEnd Row ColStart s with
    | Except.ok s1 =>
      XNvm_EfuseRowLoop bitRes data ColStart ColEnd EndRow (Row + 1) s1
    | Except.error st => { status := st, finalRow := Row, st := s }
  else
    { status := if Row ≠ EndRow then XNVM_EFUSE_ERR_GLITCH_DETECTED
        else XST_SUCCESS,
      finalRow := Row, st := s }
termination_by EndRow - Row

/-- Embedding of `XNvm_EfusePgmAndVerifyData` (xnvm_efuse.c:2235-2294).
The per-bit program/verify primitive is abstracted by the `bitRes`
status oracle, indexed by `(Row, Col)`; a null `RowData` pointer is
modelled by `none`. -/
def XNvm_EfusePgmAndVerifyData (info : XNvm_EfusePrgmInfo)
    (RowData : Option (Nat → Nat)) (bitRes : Nat → Nat → Nat) : WalkResult :=
  if info.EfuseType ≠ XNVM_EFUSE_PAGE_0 ∧ info.EfuseType ≠ XNVM_EFUSE_PAGE_1 ∧
      info.EfuseType ≠ XNVM_EFUSE_PAGE_2 then
    { status := XNVM_EFUSE_ERR_INVALID_PARAM, finalRow := info.StartRow,
      st := ⟨0, 0, 0, [], []⟩ }
  else
    match RowData with
    | none =>
      { status := XNVM_EFUSE_ERR_INVALID_PARAM, finalRow := info.StartRow,
        st := ⟨0, 0, 0, [], []⟩ }
    | some data =>
      if info.NumOfRows = 0 then
        { status := XNVM_EFUSE_ERR_INVALID_PARAM, finalRow := info.StartRow,
          st := ⟨0, 0, 0, [], []⟩ }
      else
        XNvm_EfuseRowLoop bitRes data info.ColStart info.ColEnd
          (info.StartRow + info.NumOfRows) info.StartRow ⟨0, 0, data 0, [], []⟩

/-- Bit `n % 32` of source word `n / 32`: the value the `n`-th consumed
bit of the caller's data stream must have. -/
def XNvm_sourceBit (data : Nat → Nat) (n : Nat) : Nat :=
  (data (n / 32) >>> (n % 32)) &&& 1

/-- List of the `n` data bits starting at stream position `start`. -/
def XNvm_bitsSeq (data : Nat → Nat) (start : Nat) : Nat → List Nat
  | 0 => []
  | n + 1 => XNvm_sourceBit data start :: XNvm_bitsSeq data (start + 1) n

/-- List of the `n` positions of one row visit starting at column `col`. -/
def XNvm_colVisits (Row col : Nat) : Nat → List (Nat × Nat)
  | 0 => []
  | n + 1 => (Row, col) :: XNvm_colVisits Row (col + 1) n

/-- Positions of a full walk: `rows` consecutive rows starting at `Row`,
each spanning `w` columns starting at `ColStart`. -/
def XNvm_walkVisits (ColStart w Row : Nat) : Nat → List (Nat × Nat)
  | 0 => []
  | rows + 1 =>
    XNvm_colVisits Row ColStart w ++ XNvm_walkVisits ColStart w (Row + 1) rows

/-- Invariant tying the walk state's data cursor to the number of bits
consumed so far: the intra-word index is that count modulo 32, the word
index is that count divided by 32, and the current word is the source
word shifted so that its next bit is at position zero. -/
def WalkCursorOk (data : Nat → Nat) (s : WalkSt) : Prop :=
  s.idx = s.bits.length % 32 ∧ s.wordIdx = s.bits.length / 32 ∧
    s.cur = data s.wordIdx >>> s.idx

/-- The bit examined next is the source-stream bit at the position given
by the number of bits already consumed. -/
theorem WalkCursorOk_bit (data : Nat → Nat) (s : WalkSt)
    (h : WalkCursorOk data s) :
    s.cur &&& 1 = XNvm_sourceBit data s.bits.length := by
  obtain ⟨h1, h2, h3⟩ := h
  rw [h3, h1, h2, XNvm_sourceBit]

/-- Cursor advancement does not touch the visit trace. -/
theorem XNvm_EfuseDataCursorAdvance_visits (data : Nat → Nat) (s : WalkSt) :
    (XNvm_EfuseDataCursorAdvance data s).visits = s.visits := by
  rw [XNvm_EfuseDataCursorAdvance]
  split <;> rfl

/-- Cursor advancement does not touch the bit trace. -/
theorem XNvm_EfuseDataCursorAdvance_bits (data : Nat → Nat) (s : WalkSt) :
    (XNvm_EfuseDataCursorAdvance data s).bits = s.bits := by
  rw [XNvm_EfuseDataCursorAdvance]
  split <;> rfl

/-- The cursor invariant is preserved when one bit is consumed and the
cursor advanced, independently of the column-window boundary. -/
theorem WalkCursorOk_advance (data : Nat → Nat) (s : WalkSt) (v : Nat × Nat)
    (h : WalkCursorOk data s) :
    WalkCursorOk data (XNvm_EfuseDataCursorAdvance data
      { s with visits := s.visits ++ [v], bits := s.bits ++ [s.cur &&& 1] }) := by
  obtain ⟨h1, h2, h3⟩ := h
  rw [XNvm_EfuseDataCursorAdvance]
  simp only [XNVM_EFUSE_MAX_BITS_IN_ROW]
  by_cases hc : s.idx + 1 = 32
  · rw [if_pos hc]
    refine ⟨?_, ?_, ?_⟩
    · show (0 : Nat) = (s.bits ++ [s.cur &&& 1]).length % 32
      simp only [List.length_append, List.length_cons, List.length_nil]
      omega
    · show s.wordIdx + 1 = (s.bits ++ [s.cur &&& 1]).length / 32
      simp only [List.length_append, List.length_cons, List.length_nil]
      omega
    · show data (s.wordIdx + 1) = data (s.wordIdx + 1) >>> (0 : Nat)
      rw [Nat.shiftRight_zero]
  · rw [if_neg hc]
    refine ⟨?_, ?_, ?_⟩
    · show s.idx + 1 = (s.bits ++ [s.cur &&& 1]).length % 32
      simp only [List.length_append, List.length_cons, List.length_nil]
      omega
    · show s.wordIdx = (s.bits ++ [s.cur &&& 1]).length / 32
      simp only [List.length_append, List.length_cons, List.length_nil]
      omega
    · show s.cur >>> 1 = data s.wordIdx >>> (s.idx + 1)
      rw [h3, ← Nat.shiftRight_add]

/-- Length of a bit-sequence block. -/
theorem XNvm_bitsSeq_length (data : Nat → Nat) :
    ∀ w n, (XNvm_bitsSeq data n w).length = w := by
  intro w
  induction w with
  | zero => intro n; rfl
  | succ w ih =>
    intro n
    simp only [XNvm_bitsSeq, List.length_cons, ih]

/-- Two adjacent bit-sequence blocks concatenate to one block. -/
theorem XNvm_bitsSeq_append (data : Nat → Nat) :
    ∀ w n m, XNvm_bitsSeq data n w ++ XNvm_bitsSeq data (n + w) m =
      XNvm_bitsSeq data n (w + m) := by
  intro w
  induction w with
  | zero =>
    intro n m
    simp [XNvm_bitsSeq]
  | succ w ih =>
    intro n m
    have h1 : n + (w + 1) = (n + 1) + w := by omega
    have h2 : w + 1 + m = (w + m) + 1 := by omega
    rw [h1, h2]
    show XNvm_sourceBit data n :: (XNvm_bitsSeq data (n + 1) w ++
      XNvm_bitsSeq data ((n + 1) + w) m) =
      XNvm_sourceBit data n :: XNvm_bitsSeq data (n + 1) (w + m)
    rw [ih]

/-- Element `N` of a bit-sequence block is the source-stream bit at the
corresponding absolute position. -/
theorem XNvm_bitsSeq_getD (data : Nat → Nat) :
    ∀ w n N, N < w → (XNvm_bitsSeq data n w).getD N 0 =
      XNvm_sourceBit data (n + N) := by
  intro w
  induction w with
  | zero => intro n N hN; omega
  | succ w ih =>
    intro n N hN
    match N with
    | 0 => simp [XNvm_bitsSeq]
    | N + 1 =>
      have h1 : n + (N + 1) = (n + 1) + N := by omega
      rw [h1]
      show (XNvm_bitsSeq data (n + 1) w).getD N 0 = XNvm_sourceBit data ((n + 1) + N)
      exact ih (n + 1) N (by omega)

/-- Length of a single-row visit block. -/
theorem XNvm_colVisits_length (Row : Nat) :
    ∀ n col, (XNvm_colVisits Row col n).length = n := by
  intro n
  induction n with
  | zero => intro col; rfl
  | succ n ih =>
    intro col
    simp only [XNvm_colVisits, List.length_cons, ih]

/-- Element `N` of a single-row visit block. -/
theorem XNvm_colVisits_getD (Row : Nat) :
    ∀ n col N, N < n →
      (XNvm_colVisits Row col n).getD N (0, 0) = (Row, col + N) := by
  intro n
  induction n with
  | zero => intro col N hN; omega
  | succ n ih =>
    intro col N hN
    match N with
    | 0 => simp [XNvm_colVisits]
    | N + 1 =>
      have h1 : col + (N + 1) = (col + 1) + N := by omega
      rw [h1]
      show (XNvm_colVisits Row (col + 1) n).getD N (0, 0) = (Row, (col + 1) + N)
      exact ih (col + 1) N (by omega)

/-- Length of the full-walk visit list. -/
theorem XNvm_walkVisits_length (ColStart w : Nat) :
    ∀ rows Row, (XNvm_walkVisits ColStart w Row rows).length = rows * w := by
  intro rows
  induction rows with
  | zero => intro Row; simp [XNvm_walkVisits]
  | succ rows ih =>
    intro Row
    simp only [XNvm_walkVisits, List.length_append, XNvm_colVisits_length, ih]
    have hsm : (rows + 1) * w = rows * w + w := by ring
    omega

/-- Element `N` of the full-walk visit list: position `N` of the walk is
row `Row + N / w`, column `ColStart + N % w`. -/
theorem XNvm_walkVisits_getD (ColStart w : Nat) (hw : 0 < w) :
    ∀ rows Row N, N < rows * w →
      (XNvm_walkVisits ColStart w Row rows).getD N (0, 0) =
        (Row + N / w, ColStart + N % w) := by
  intro rows
  induction rows with
  | zero => intro Row N hN; omega
  | succ rows ih =>
    intro Row N hN
    rw [XNvm_walkVisits]
    by_cases hNw : N < w
    · rw [List.getD_append _ _ _ _ (by rw [XNvm_colVisits_length]; exact hNw)]
      rw [XNvm_colVisits_getD Row w ColStart N hNw]
      rw [Nat.div_eq_of_lt hNw, Nat.mod_eq_of_lt hNw, Nat.add_zero]
    · have hlen : (XNvm_colVisits Row ColStart w).length ≤ N := by
        rw [XNvm_colVisits_length]; omega
      rw [List.getD_append_right _ _ _ _ hlen]
      rw [XNvm_colVisits_length]
      have hsub : N - w < rows * w := by
        have hsm : (rows + 1) * w = rows * w + w := by ring
        omega
      rw [ih (Row + 1) (N - w) hsub]
      have hN' : N = (N - w) + w := by omega
      have hdiv : N / w = (N - w) / w + 1 := by
        conv_lhs => rw [hN']
        rw [Nat.add_div_right _ hw]
      have hmod : N % w = (N - w) % w := by
        conv_lhs => rw [hN']
        rw [Nat.add_mod_right]
      rw [hdiv, hmod]
      have harr : Row + 1 + (N - w) / w = Row + ((N - w) / w + 1) := by omega
      rw [harr]

/-- All-success run of the inner column loop: no abort happens, the walk
visits exactly the columns from the current one to `ColEnd`, the bits
consumed continue the source stream, and the cursor invariant is
maintained across the window boundary. -/
theorem XNvm_EfuseColLoop_ok (bitRes : Nat → Nat → Nat) (data : Nat → Nat)
    (hbit : ∀ r c, bitRes r c = XST_SUCCESS) (colEnd Row : Nat) :
    ∀ fuel col s, colEnd + 1 - col ≤ fuel → WalkCursorOk data s →
      ∃ s1, XNvm_EfuseColLoop bitRes data colEnd Row col s = Except.ok s1 ∧
        s1.visits = s.visits ++ XNvm_colVisits Row col (colEnd + 1 - col) ∧
        s1.bits = s.bits ++ XNvm_bitsSeq data s.bits.length (colEnd + 1 - col) ∧
        WalkCursorOk data s1 := by
  intro fuel
  induction fuel with
  | zero =>
    intro col s hf hok
    have hcol : ¬ (col ≤ colEnd) := by omega
    have h0 : colEnd + 1 - col = 0 := by omega
    refine ⟨s, ?_, ?_, ?_, hok⟩
    · rw [XNvm_EfuseColLoop, if_neg hcol]
    · rw [h0]; simp [XNvm_colVisits]
    · rw [h0]; simp [XNvm_bitsSeq]
  | succ fuel ih =>
    intro col s hf hok
    by_cases hcol : col ≤ colEnd
    · have hcond : ¬ (s.cur &&& 1 ≠ 0 ∧ bitRes Row col ≠ XST_SUCCESS) :=
        fun h => h.2 (hbit Row col)
      obtain ⟨s1, heq, hv, hb, hok1⟩ := ih (col + 1)
        (XNvm_EfuseDataCursorAdvance data
          { s with visits := s.visits ++ [(Row, col)],
                   bits := s.bits ++ [s.cur &&& 1] })
        (by omega)
        (WalkCursorOk_advance data s (Row, col) hok)
      have hvadv : (XNvm_EfuseDataCursorAdvance data
          { s with visits := s.visits ++ [(Row, col)],
                   bits := s.bits ++ [s.cur &&& 1] }).visits =
          s.visits ++ [(Row, col)] :=
        XNvm_EfuseDataCursorAdvance_visits data _
      have hbadv : (XNvm_EfuseDataCursorAdvance data
          { s with visits := s.visits ++ [(Row, col)],
                   bits := s.bits ++ [s.cur &&& 1] }).bits =
          s.bits ++ [s.cur &&& 1] :=
        XNvm_EfuseDataCursorAdvance_bits data _
      have hn : colEnd + 1 - col = (colEnd + 1 - (col + 1)) + 1 := by omega
      refine ⟨s1, ?_, ?_, ?_, hok1⟩
      · rw [XNvm_EfuseColLoop, if_pos hcol, if_neg hcond]
        exact heq
      · rw [hv, hvadv, hn]
        show s.visits ++ [(Row, col)] ++
          XNvm_colVisits Row (col + 1) (colEnd + 1 - (col + 1)) =
          s.visits ++ ((Row, col) :: XNvm_colVisits Row (col + 1) (colEnd + 1 - (col + 1)))
        rw [List.append_assoc, List.singleton_append]
      · rw [hb, hbadv, hn]
        rw [hbadv] at hb
        have hlen : (s.bits ++ [s.cur &&& 1]).length = s.bits.length + 1 := by
          simp
        rw [hlen]
        have hbitval : s.cur &&& 1 = XNvm_sourceBit data s.bits.length :=
          WalkCursorOk_bit data s hok
        rw [hbitval]
        show s.bits ++ [XNvm_sourceBit data s.bits.length] ++
          XNvm_bitsSeq data (s.bits.length + 1) (colEnd + 1 - (col + 1)) =
          s.bits ++ (XNvm_sourceBit data s.bits.length ::
            XNvm_bitsSeq data (s.bits.length + 1) (colEnd + 1 - (col + 1)))
        rw [List.append_assoc, List.singleton_append]
    · have h0 : colEnd + 1 - col = 0 := by omega
      refine ⟨s, ?_, ?_, ?_, hok⟩
      · rw [XNvm_EfuseColLoop, if_neg hcol]
      · rw [h0]; simp [XNvm_colVisits]
      · rw [h0]; simp [XNvm_bitsSeq]

/-- All-success run of the row loop: starting `rows` rows before the end
row, the walk completes with success (the glitch branch is not taken),
the row cursor lands exactly on the end row, the visit trace appends the
full rectangle, and the bit trace appends the next `rows * width` bits
of the source stream. -/
theorem XNvm_EfuseRowLoop_ok (bitRes : Nat → Nat → Nat) (data : Nat → Nat)
    (hbit : ∀ r c, bitRes r c = XST_SUCCESS) (ColStart ColEnd : Nat) :
    ∀ rows Row s, WalkCursorOk data s →
      (XNvm_EfuseRowLoop bitRes data ColStart ColEnd (Row + rows) Row s).status =
        XST_SUCCESS ∧
      (XNvm_EfuseRowLoop bitRes data ColStart ColEnd (Row + rows) Row s).finalRow =
        Row + rows ∧
      (XNvm_EfuseRowLoop bitRes data ColStart ColEnd (Row + rows) Row s).st.visits =
        s.visits ++ XNvm_walkVisits ColStart (ColEnd + 1 - ColStart) Row rows ∧
      (XNvm_EfuseRowLoop bitRes data ColStart ColEnd (Row + rows) Row s).st.bits =
        s.bits ++ XNvm_bitsSeq data s.bits.length
          (rows * (ColEnd + 1 - ColStart)) := by
  intro rows
  induction rows with
  | zero =>
    intro Row s hok
    have h1 : ¬ (Row < Row + 0) := by omega
    rw [XNvm_EfuseRowLoop, if_neg h1]
    refine ⟨?_, ?_, ?_, ?_⟩
    · show (if Row ≠ Row + 0 then XNVM_EFUSE_ERR_GLITCH_DETECTED
        else XST_SUCCESS) = XST_SUCCESS
      rw [if_neg (by omega)]
    · show Row = Row + 0
      omega
    · show s.visits = s.visits ++ XNvm_walkVisits ColStart (ColEnd + 1 - ColStart) Row 0
      simp [XNvm_walkVisits]
    · show s.bits = s.bits ++ XNvm_bitsSeq data s.bits.length
        (0 * (ColEnd + 1 - ColStart))
      rw [Nat.zero_mul]
      simp [XNvm_bitsSeq]
  | succ rows ih =>
    intro Row s hok
    have h1 : Row < Row + (rows + 1) := by omega
    obtain ⟨s1, heq, hv, hb, hok1⟩ := XNvm_EfuseColLoop_ok bitRes data hbit
      ColEnd Row (ColEnd + 1 - ColStart) ColStart s (le_refl _) hok
    have hred : XNvm_EfuseRowLoop bitRes data ColStart ColEnd (Row + (rows + 1)) Row s =
        XNvm_EfuseRowLoop bitRes data ColStart ColEnd (Row + (rows + 1)) (Row + 1) s1 := by
      rw [XNvm_EfuseRowLoop, if_pos h1, heq]
    have hrw : Row + (rows + 1) = (Row + 1) + rows := by omega
    rw [hred, hrw]
    obtain ⟨hst, hfr, hvv, hbb⟩ := ih (Row + 1) s1 hok1
    refine ⟨hst, hfr, ?_, ?_⟩
    · rw [hvv, hv]
      show (s.visits ++ XNvm_colVisits Row ColStart (ColEnd + 1 - ColStart)) ++
        XNvm_walkVisits ColStart (ColEnd + 1 - ColStart) (Row + 1) rows =
        s.visits ++ (XNvm_colVisits Row ColStart (ColEnd + 1 - ColStart) ++
          XNvm_walkVisits ColStart (ColEnd + 1 - ColStart) (Row + 1) rows)
      rw [List.append_assoc]
    · rw [hbb, hb]
      have hlen : (s.bits ++ XNvm_bitsSeq data s.bits.length
          (ColEnd + 1 - ColStart)).length =
          s.bits.length + (ColEnd + 1 - ColStart) := by
        rw [List.length_append, XNvm_bitsSeq_length]
      rw [hlen, List.append_assoc, XNvm_bitsSeq_append]
      have harr : (ColEnd + 1 - ColStart) + rows * (ColEnd + 1 - ColStart) =
          (rows + 1) * (ColEnd + 1 - ColStart) := by ring
      rw [harr]

/-- Claim C3: for every `ProgramRange` with a valid page, non-null data
and `NumOfRows > 0` (and `ColStart ≤ ColEnd`, the `ProgramRange`
invariant), when every per-bit program/verify call succeeds the walk of
`XNvm_EfusePgmAndVerifyData` returns success (the glitch branch is not
taken), the final row cursor equals `StartRow + NumOfRows`, exactly
`NumOfRows * (ColEnd - ColStart + 1)` positions are visited, and the
`N`-th visited position is row `StartRow + N / width`, column
`ColStart + N % width` — rows from `StartRow` to `StartRow + NumOfRows`
exclusive, columns from `ColStart` to `ColEnd` inclusive. -/
theorem XNvm_EfusePgmAndVerifyData_walk (info : XNvm_EfusePrgmInfo)
    (data : Nat → Nat) (bitRes : Nat → Nat → Nat)
    (hpage : info.EfuseType = XNVM_EFUSE_PAGE_0 ∨
      info.EfuseType = XNVM_EFUSE_PAGE_1 ∨ info.EfuseType = XNVM_EFUSE_PAGE_2)
    (hrows : 0 < info.NumOfRows) (hcols : info.ColStart ≤ info.ColEnd)
    (hbit : ∀ r c, bitRes r c = XST_SUCCESS) :
    (XNvm_EfusePgmAndVerifyData info (some data) bitRes).status = XST_SUCCESS ∧
    (XNvm_EfusePgmAndVerifyData info (some data) bitRes).finalRow =
      info.StartRow + info.NumOfRows ∧
    (XNvm_EfusePgmAndVerifyData info (some data) bitRes).st.visits.length =
      info.NumOfRows * (info.ColEnd - info.ColStart + 1) ∧
    (∀ N, N < info.NumOfRows * (info.ColEnd - info.ColStart + 1) →
      (XNvm_EfusePgmAndVerifyData info (some data) bitRes).st.visits.getD N (0, 0) =
        (info.StartRow + N / (info.ColEnd - info.ColStart + 1),
         info.ColStart + N % (info.ColEnd - info.ColStart + 1))) := by
  have hcond : ¬ (info.EfuseType ≠ XNVM_EFUSE_PAGE_0 ∧
      info.EfuseType ≠ XNVM_EFUSE_PAGE_1 ∧ info.EfuseType ≠ XNVM_EFUSE_PAGE_2) := by
    rcases hpage with h | h | h <;> simp [h]
  have hred : XNvm_EfusePgmAndVerifyData info (some data) bitRes =
      XNvm_EfuseRowLoop bitRes data info.ColStart info.ColEnd
        (info.StartRow + info.NumOfRows) info.StartRow ⟨0, 0, data 0, [], []⟩ := by
    simp only [XNvm_EfusePgmAndVerifyData, if_neg hcond]
    rw [if_neg (by omega)]
  have hok0 : WalkCursorOk data ⟨0, 0, data 0, [], []⟩ := by
    refine ⟨by simp, by simp, ?_⟩
    show data 0 = data 0 >>> (0 : Nat)
    rw [Nat.shiftRight_zero]
  obtain ⟨hst, hfr, hv, hb⟩ := XNvm_EfuseRowLoop_ok bitRes data hbit
    info.ColStart info.ColEnd info.NumOfRows info.StartRow
    ⟨0, 0, data 0, [], []⟩ hok0
  have hw : info.ColEnd + 1 - info.ColStart = info.ColEnd - info.ColStart + 1 := by
    omega
  rw [hred]
  refine ⟨hst, hfr, ?_, ?_⟩
  · rw [hv]
    show ([] ++ XNvm_walkVisits info.ColStart (info.ColEnd + 1 - info.ColStart)
      info.StartRow info.NumOfRows).length =
      info.NumOfRows * (info.ColEnd - info.ColStart + 1)
    rw [List.nil_append, hw, XNvm_walkVisits_length]
  · intro N hN
    rw [hv]
    show ([] ++ XNvm_walkVisits info.ColStart (info.ColEnd + 1 - info.ColStart)
      info.StartRow info.NumOfRows).getD N (0, 0) =
      (info.StartRow + N / (info.ColEnd - info.ColStart + 1),
       info.ColStart + N % (info.ColEnd - info.ColStart + 1))
    rw [List.nil_append, hw]
    exact XNvm_walkVisits_getD info.ColStart _ (by omega)
      info.NumOfRows info.StartRow N hN

/-- Witness for C3: a 3-row range over columns 2..4 with all per-bit
calls succeeding returns success, ends with the row cursor at 8,
visits 9 positions, and position 4 of the walk is `(row 6, col 3)`. -/
theorem XNvm_EfusePgmAndVerifyData_walk_witness :
    (XNvm_EfusePgmAndVerifyData ⟨5, 2, 4, 3, 0, 0⟩ (some fun _ => 0)
      (fun _ _ => 0)).status = XST_SUCCESS ∧
    (XNvm_EfusePgmAndVerifyData ⟨5, 2, 4, 3, 0, 0⟩ (some fun _ => 0)
      (fun _ _ => 0)).finalRow = 8 ∧
    (XNvm_EfusePgmAndVerifyData ⟨5, 2, 4, 3, 0, 0⟩ (some fun _ => 0)
      (fun _ _ => 0)).st.visits.length = 9 ∧
    (XNvm_EfusePgmAndVerifyData ⟨5, 2, 4, 3, 0, 0⟩ (some fun _ => 0)
      (fun _ _ => 0)).st.visits.getD 4 (0, 0) = (6, 3) := by
  have h := XNvm_EfusePgmAndVerifyData_walk ⟨5, 2, 4, 3, 0, 0⟩ (fun _ => 0)
    (fun _ _ => 0) (Or.inl rfl) (by decide) (by decide) (fun _ _ => rfl)
  refine ⟨h.1, ?_, ?_, ?_⟩
  · rw [h.2.1]; decide
  · rw [h.2.2.1]; decide
  · rw [h.2.2.2 4 (by decide)]; decide

/-- Claim C4: during the walk of `XNvm_EfusePgmAndVerifyData`, the `N`-th
bit consumed from the caller's data stream (across all visited
positions in walk order) is bit `N % 32` of source word `N / 32`, for
every window width `ColEnd - ColStart + 1` — the data-word cursor is
decoupled from the column-window boundary. -/
theorem XNvm_EfusePgmAndVerifyData_bitStream (info : XNvm_EfusePrgmInfo)
    (data : Nat → Nat) (bitRes : Nat → Nat → Nat)
    (hpage : info.EfuseType = XNVM_EFUSE_PAGE_0 ∨
      info.EfuseType = XNVM_EFUSE_PAGE_1 ∨ info.EfuseType = XNVM_EFUSE_PAGE_2)
    (hrows : 0 < info.NumOfRows)
    (hbit : ∀ r c, bitRes r c = XST_SUCCESS) :
    (XNvm_EfusePgmAndVerifyData info (some data) bitRes).st.bits.length =
      info.NumOfRows * (info.ColEnd + 1 - info.ColStart) ∧
    (∀ N, N < info.NumOfRows * (info.ColEnd + 1 - info.ColStart) →
      (XNvm_EfusePgmAndVerifyData info (some data) bitRes).st.bits.getD N 0 =
        (data (N / 32) >>> (N % 32)) &&& 1) := by
  have hcond : ¬ (info.EfuseType ≠ XNVM_EFUSE_PAGE_0 ∧
      info.EfuseType ≠ XNVM_EFUSE_PAGE_1 ∧ info.EfuseType ≠ XNVM_EFUSE_PAGE_2) := by
    rcases hpage with h | h | h <;> simp [h]
  have hred : XNvm_EfusePgmAndVerifyData info (some data) bitRes =
      XNvm_EfuseRowLoop bitRes data info.ColStart info.ColEnd
        (info.StartRow + info.NumOfRows) info.StartRow ⟨0, 0, data 0, [], []⟩ := by
    simp only [XNvm_EfusePgmAndVerifyData, if_neg hcond]
    rw [if_neg (by omega)]
  have hok0 : WalkCursorOk data ⟨0, 0, data 0, [], []⟩ := by
    refine ⟨by simp, by simp, ?_⟩
    show data 0 = data 0 >>> (0 : Nat)
    rw [Nat.shiftRight_zero]
  obtain ⟨hst, hfr, hv, hb⟩ := XNvm_EfuseRowLoop_ok bitRes data hbit
    info.ColStart info.ColEnd info.NumOfRows info.StartRow
    ⟨0, 0, data 0, [], []⟩ hok0
  rw [hred]
  refine ⟨?_, ?_⟩
  · rw [hb]
    show ([] ++ XNvm_bitsSeq data ([] : List Nat).length
      (info.NumOfRows * (info.ColEnd + 1 - info.ColStart))).length =
      info.NumOfRows * (info.ColEnd + 1 - info.ColStart)
    rw [List.nil_append, XNvm_bitsSeq_length]
  · intro N hN
    rw [hb]
    show ([] ++ XNvm_bitsSeq data ([] : List Nat).length
      (info.NumOfRows * (info.ColEnd + 1 - info.ColStart))).getD N 0 =
      (data (N / 32) >>> (N % 32)) &&& 1
    rw [List.nil_append]
    have hg := XNvm_bitsSeq_getD data
      (info.NumOfRows * (info.ColEnd + 1 - info.ColStart)) 0 N hN
    rw [Nat.zero_add] at hg
    show (XNvm_bitsSeq data 0
      (info.NumOfRows * (info.ColEnd + 1 - info.ColStart))).getD N 0 =
      (data (N / 32) >>> (N % 32)) &&& 1
    rw [hg, XNvm_sourceBit]

/-- Witness for C4: a 12-row range of width 3 (≠ 32) consumes 36 bits;
bit 33 of its stream is bit 1 of source word 1, here equal to 1. -/
theorem XNvm_EfusePgmAndVerifyData_bitStream_witness :
    (XNvm_EfusePgmAndVerifyData ⟨0, 0, 2, 12, 0, 0⟩
      (some fun i => if i = 0 then 0 else 2) (fun _ _ => 0)).st.bits.getD 33 0 = 1 := by
  have h := XNvm_EfusePgmAndVerifyData_bitStream ⟨0, 0, 2, 12, 0, 0⟩
    (fun i => if i = 0 then 0 else 2) (fun _ _ => 0) (Or.inl rfl) (by decide)
    (fun _ _ => rfl)
  rw [h.2 33 (by decide)]
  decide

/-!  Controller session manager and public write entry points.  The
statuses of the collaborator routines implemented outside this file
(`XNvm_EfuseSetupController`, the `XNvm_Validate*` helpers, and the
three close sub-steps) are oracle parameters; per-bit programming is
abstracted by the `bitRes` oracle as before.  -/

/-- Embedding of `XNvm_EfuseCloseController` (xnvm_efuse.c:1819-1835):
reset read mode, disable programming, re-lock, halting at the first
failing sub-step and returning its status. -/
def XNvm_EfuseCloseController (resetSt disableSt lockSt : Nat) : Nat :=
  if resetSt ≠ XST_SUCCESS then resetSt
  else if disableSt ≠ XST_SUCCESS then disableSt
  else lockSt

/-- Hardware-session environment of one public write call: the status of
`XNvm_EfuseSetupController` and the statuses of the three close
sub-steps. -/
structure SessionEnv where
  setupStatus : Nat
  resetStatus : Nat
  disableStatus : Nat
  lockStatus : Nat

/-- Modelled from the spec: AES key-type enumerator (header absent). -/
def XNVM_EFUSE_AES_KEY : Nat := 0

/-- Modelled from the spec: user-key-0 enumerator (header absent). -/
def XNVM_EFUSE_USER_KEY_0 : Nat := 1

/-- Modelled from the spec: user-key-1 enumerator (header absent). -/
def XNVM_EFUSE_USER_KEY_1 : Nat := 2

/-- Observable outcome of one public write entry point: the returned
status, the write-path status that reached the `END` label before the
close merge, whether `XNvm_EfuseSetupController` was invoked, and how
many times the close sequence ran. -/
structure EntryResult where
  status : Nat
  writeStatus : Nat
  setupCalled : Bool
  closeCalls : Nat

/-- Embedding of `XNvm_EfuseWriteAesKey` (xnvm_efuse.c:106-145): key-type
check, null check, setup, validation (status oracle `validateStatus`,
tagged with the before-programming stage on failure), programming
(status oracle `prgmStatus`), then the single `END` unwind that always
runs the close sequence once and reports the close status only when the
write path succeeded. -/
def XNvm_EfuseWriteAesKey (KeyType : Nat) (keyNull : Bool) (env : SessionEnv)
    (validateStatus prgmStatus : Nat) : EntryResult :=
  let body : Nat × Bool :=
    if KeyType ≠ XNVM_EFUSE_AES_KEY ∧ KeyType ≠ XNVM_EFUSE_USER_KEY_0 ∧
        KeyType ≠ XNVM_EFUSE_USER_KEY_1 then
      (XNVM_EFUSE_ERR_INVALID_PARAM, false)
    else if keyNull then
      (XNVM_EFUSE_ERR_INVALID_PARAM, false)
    else if env.setupStatus ≠ XST_SUCCESS then
      (env.setupStatus, true)
    else if validateStatus ≠ XST_SUCCESS then
      (validateStatus ||| XNVM_EFUSE_ERR_BEFORE_PROGRAMMING, true)
    else
      (prgmStatus, true)
  { status := if body.1 = XST_SUCCESS then
      XNvm_EfuseCloseController env.resetStatus env.disableStatus env.lockStatus
    else body.1,
    writeStatus := body.1, setupCalled := body.2, closeCalls := 1 }

/-- Modelled from the spec: FIPS-mode/version fuse coordinates
(`xnvm_efuse_hw.h` absent); placeholder rows/columns, pairwise distinct. -/
def XNVM_EFUSE_DME_FIPS_ROW : Nat := 40

/-- Modelled from the spec: first column of the FIPS mode field. -/
def XNVM_EFUSE_FIPS_MODE_START_COL_NUM : Nat := 0

/-- Modelled from the spec: last column of the FIPS mode field. -/
def XNVM_EFUSE_FIPS_MODE_END_COL_NUM : Nat := 7

/-- Modelled from the spec: row count of the FIPS mode range. -/
def XNVM_EFUSE_DME_FIPS_NUM_OF_ROWS : Nat := 1

/-- Modelled from the spec: row holding the FIPS version bits. -/
def XNVM_EFUSE_IP_DISABLE_ROW : Nat := 41

/-- Modelled from the spec: column of FIPS version bit 0. -/
def XNVM_EFUSE_FIPS_VERSION_COL_0_NUM : Nat := 24

/-- Modelled from the spec: column of FIPS version bit 1. -/
def XNVM_EFUSE_FIPS_VERSION_COL_1_NUM : Nat := 25

/-- Modelled from the spec: column of FIPS version bit 2. -/
def XNVM_EFUSE_FIPS_VERSION_COL_2_NUM : Nat := 26

/-- Outcome of `XNvm_EfusePrgmFipsInfo`: its status, the walk result of
the FIPS-mode range programming, and the list of single-bit
program/verify operations issued for the version bits, in order. -/
structure FipsPrgmResult where
  status : Nat
  modeWalk : WalkResult
  versionOps : List (Nat × Nat)

/-- Embedding of `XNvm_EfusePrgmFipsInfo` (xnvm_efuse.c:1420-1472):
program the FIPS mode bits through the range programmer (the data
stream is the single word `FipsMode`), then issue one single-bit
program/verify operation per set bit among version bits 0, 1, 2,
aborting on the first failure. -/
def XNvm_EfusePrgmFipsInfo (FipsMode FipsVersion : Nat)
    (bitRes : Nat → Nat → Nat) : FipsPrgmResult :=
  let r := XNvm_EfusePgmAndVerifyData
    { StartRow := XNVM_EFUSE_DME_FIPS_ROW,
      ColStart := XNVM_EFUSE_FIPS_MODE_START_COL_NUM,
      ColEnd := XNVM_EFUSE_FIPS_MODE_END_COL_NUM,
      NumOfRows := XNVM_EFUSE_DME_FIPS_NUM_OF_ROWS,
      SkipVerify := XNVM_EFUSE_PROGRAM_VERIFY,
      EfuseType := XNVM_EFUSE_PAGE_0 }
    (some fun i => if i = 0 then FipsMode else 0) bitRes
  if r.status ≠ XST_SUCCESS then
    { status := r.status, modeWalk := r, versionOps := [] }
  else if FipsVersion &&& 1 = 1 ∧
      bitRes XNVM_EFUSE_IP_DISABLE_ROW XNVM_EFUSE_FIPS_VERSION_COL_0_NUM ≠
        XST_SUCCESS then
    { status := bitRes XNVM_EFUSE_IP_DISABLE_ROW XNVM_EFUSE_FIPS_VERSION_COL_0_NUM,
      modeWalk := r,
      versionOps := [(XNVM_EFUSE_IP_DISABLE_ROW, XNVM_EFUSE_FIPS_VERSION_COL_0_NUM)] }
  else if (FipsVersion >>> 1) &&& 1 = 1 ∧
      bitRes XNVM_EFUSE_IP_DISABLE_ROW XNVM_EFUSE_FIPS_VERSION_COL_1_NUM ≠
        XST_SUCCESS then
    { status := bitRes XNVM_EFUSE_IP_DISABLE_ROW XNVM_EFUSE_FIPS_VERSION_COL_1_NUM,
      modeWalk := r,
      versionOps := (if FipsVersion &&& 1 = 1 then
          [(XNVM_EFUSE_IP_DISABLE_ROW, XNVM_EFUSE_FIPS_VERSION_COL_0_NUM)] else []) ++
        [(XNVM_EFUSE_IP_DISABLE_ROW, XNVM_EFUSE_FIPS_VERSION_COL_1_NUM)] }
  else if (FipsVersion >>> 2) &&& 1 = 1 ∧
      bitRes XNVM_EFUSE_IP_DISABLE_ROW XNVM_EFUSE_FIPS_VERSION_COL_2_NUM ≠
        XST_SUCCESS then
    { status := bitRes XNVM_EFUSE_IP_DISABLE_ROW XNVM_EFUSE_FIPS_VERSION_COL_2_NUM,
      modeWalk := r,
      versionOps := (if FipsVersion &&& 1 = 1 then
          [(XNVM_EFUSE_IP_DISABLE_ROW, XNVM_EFUSE_FIPS_VERSION_COL_0_NUM)] else []) ++
        (if (FipsVersion >>> 1) &&& 1 = 1 then
          [(XNVM_EFUSE_IP_DISABLE_ROW, XNVM_EFUSE_FIPS_VERSION_COL_1_NUM)] else []) ++
        [(XNVM_EFUSE_IP_DISABLE_ROW, XNVM_EFUSE_FIPS_VERSION_COL_2_NUM)] }
  else
    { status := XST_SUCCESS,
      modeWalk := r,
      versionOps := (if FipsVersion &&& 1 = 1 then
          [(XNVM_EFUSE_IP_DISABLE_ROW, XNVM_EFUSE_FIPS_VERSION_COL_0_NUM)] else []) ++
        (if (FipsVersion >>> 1) &&& 1 = 1 then
          [(XNVM_EFUSE_IP_DISABLE_ROW, XNVM_EFUSE_FIPS_VERSION_COL_1_NUM)] else []) ++
        (if (FipsVersion >>> 2) &&& 1 = 1 then
          [(XNVM_EFUSE_IP_DISABLE_ROW, XNVM_EFUSE_FIPS_VERSION_COL_2_NUM)] else []) }

/-- Observable outcome of `XNvm_EfuseWriteFipsInfo`: the entry-point
fields plus the FIPS programming stage outcome when it was reached. -/
structure FipsWriteResult where
  status : Nat
  writeStatus : Nat
  setupCalled : Bool
  closeCalls : Nat
  prgm : Option FipsPrgmResult

/-- Embedding of `XNvm_EfuseWriteFipsInfo` (xnvm_efuse.c:790-832):
version and mode range checks before any hardware touch, setup,
validation (oracle), FIPS programming, single close unwind. -/
def XNvm_EfuseWriteFipsInfo (EnvDisFlag FipsMode FipsVersion : Nat)
    (env : SessionEnv) (validateStatus : Nat)
    (bitRes : Nat → Nat → Nat) : FipsWriteResult :=
  let body : Nat × Bool × Option FipsPrgmResult :=
    if FipsVersion > XNVM_EFUSE_MAX_FIPS_VERSION then
      (XNVM_EFUSE_ERR_INVALID_PARAM, false, none)
    else if FipsMode > XNVM_EFUSE_MAX_FIPS_MODE then
      (XNVM_EFUSE_ERR_INVALID_PARAM, false, none)
    else if env.setupStatus ≠ XST_SUCCESS then
      (env.setupStatus, true, none)
    else if validateStatus ≠ XST_SUCCESS then
      (validateStatus ||| XNVM_EFUSE_ERR_BEFORE_PROGRAMMING, true, none)
    else
      ((XNvm_EfusePrgmFipsInfo FipsMode FipsVersion bitRes).status, true,
        some (XNvm_EfusePrgmFipsInfo FipsMode FipsVersion bitRes))
  { status := if body.1 = XST_SUCCESS then
      XNvm_EfuseCloseController env.resetStatus env.disableStatus env.lockStatus
    else body.1,
    writeStatus := body.1, setupCalled := body.2.1, closeCalls := 1,
    prgm := body.2.2 }

/-- Modelled from the spec: highest valid revocation id
(`XNVM_MAX_REVOKE_ID_FUSES`, header absent; the spec's index map covers
ids 1..255). -/
def XNVM_MAX_REVOKE_ID_FUSES : Nat := 255

/-- Modelled from the spec: base row of revocation ids 1..128
(placeholder value, header absent). -/
def XNVM_EFUSE_REVOKE_ID_0_TO_127_START_ROW : Nat := 80

/-- Modelled from the spec: base column of revocation ids 1..128. -/
def XNVM_EFUSE_REVOKE_ID_0_TO_127_START_COL_NUM : Nat := 0

/-- Modelled from the spec: base row of revocation ids 129..255
(placeholder value, header absent). -/
def XNVM_EFUSE_REVOKE_ID_128_TO_255_START_ROW : Nat := 64

/-- Modelled from the spec: base column of revocation ids 129..255. -/
def XNVM_EFUSE_REVOKE_ID_128_TO_255_START_COL_NUM : Nat := 8

/-- Observable outcome of `XNvm_EfuseWriteRevocationID`: entry-point
fields plus the `(row, col)` single-bit program operations issued. -/
structure RevokeWriteResult where
  status : Nat
  writeStatus : Nat
  setupCalled : Bool
  closeCalls : Nat
  pgmOps : List (Nat × Nat)

/-- Embedding of `XNvm_EfuseWriteRevocationID` (xnvm_efuse.c:430-477):
range check on the id, setup, base selection (ids 1..128 versus the
rest), `row += (id-1)/8`, `col += (id-1)%8`, one program/verify bit
operation tagged with the revocation-id field error on failure, single
close unwind. -/
def XNvm_EfuseWriteRevocationID (EnvDisFlag RevokeIdNum : Nat)
    (env : SessionEnv) (bitRes : Nat → Nat → Nat) : RevokeWriteResult :=
  let body : Nat × Bool × List (Nat × Nat) :=
    if RevokeIdNum = 0 ∨ RevokeIdNum > XNVM_MAX_REVOKE_ID_FUSES then
      (XNVM_EFUSE_ERR_INVALID_PARAM, false, [])
    else if env.setupStatus ≠ XST_SUCCESS then
      (env.setupStatus, true, [])
    else
      let base : Nat × Nat :=
        if 1 ≤ RevokeIdNum ∧ RevokeIdNum ≤ 128 then
          (XNVM_EFUSE_REVOKE_ID_0_TO_127_START_ROW,
           XNVM_EFUSE_REVOKE_ID_0_TO_127_START_COL_NUM)
        else
          (XNVM_EFUSE_REVOKE_ID_128_TO_255_START_ROW,
           XNVM_EFUSE_REVOKE_ID_128_TO_255_START_COL_NUM)
      let RevokeIdRow := base.1 + (RevokeIdNum - 1) / XNVM_EFUSE_BITS_IN_A_BYTE
      let RevokeIdCol := base.2 + (RevokeIdNum - 1) % XNVM_EFUSE_BITS_IN_A_BYTE
      (if bitRes RevokeIdRow RevokeIdCol ≠ XST_SUCCESS then
        bitRes RevokeIdRow RevokeIdCol ||| XNVM_EFUSE_ERR_WRITE_REVOCATION_IDS
      else bitRes RevokeIdRow RevokeIdCol,
        true, [(RevokeIdRow, RevokeIdCol)])
  { status := if body.1 = XST_SUCCESS then
      XNvm_EfuseCloseController env.resetStatus env.disableStatus env.lockStatus
    else body.1,
    writeStatus := body.1, setupCalled := body.2.1, closeCalls := 1,
    pgmOps := body.2.2 }

/-- Modelled from the spec: DME user key 0 enumerator (header absent). -/
def XNVM_EFUSE_DME_USER_KEY_0 : Nat := 0

/-- Modelled from the spec: DME user key 1 enumerator (header absent). -/
def XNVM_EFUSE_DME_USER_KEY_1 : Nat := 1

/-- Modelled from the spec: DME user key 2 enumerator (header absent). -/
def XNVM_EFUSE_DME_USER_KEY_2 : Nat := 2

/-- Modelled from the spec: DME user key 3 enumerator (header absent). -/
def XNVM_EFUSE_DME_USER_KEY_3 : Nat := 3

/-- Modelled from the spec: DME-mode-already-set status code
(header absent). -/
def XNVM_EFUSE_ERR_DME_MODE_SET : Nat := 0x8900

/-- Key-type validity check of `XNvm_EfuseWriteDmeUserKey`
(xnvm_efuse.c:969-972) with the source's exact parenthesization:
`(k != KEY_0) && (k != KEY_1) && (k != KEY_2 && (k != KEY_3))`. -/
def XNvm_EfuseDmeKeyTypeRejected (KeyType : Nat) : Bool :=
  (KeyType != XNVM_EFUSE_DME_USER_KEY_0) &&
    (KeyType != XNVM_EFUSE_DME_USER_KEY_1) &&
    ((KeyType != XNVM_EFUSE_DME_USER_KEY_2) &&
      (KeyType != XNVM_EFUSE_DME_USER_KEY_3))

/-- Observable outcome of `XNvm_EfuseWriteDmeUserKey`: entry-point
fields plus whether the key-type check rejected the argument. -/
structure DmeWriteResult where
  status : Nat
  writeStatus : Nat
  keyCheckRejected : Bool
  setupCalled : Bool
  closeCalls : Nat

/-- Embedding of `XNvm_EfuseWriteDmeUserKey` (xnvm_efuse.c:963-1007):
key-type check, null check, DME-mode cache guard (`dmeModeCacheVal` is
the masked cache value), setup, key programming (status oracle
`prgmStatus`), single close unwind. -/
def XNvm_EfuseWriteDmeUserKey (KeyType : Nat) (keyNull : Bool)
    (dmeModeCacheVal : Nat) (env : SessionEnv) (prgmStatus : Nat) :
    DmeWriteResult :=
  let body : Nat × Bool :=
    if XNvm_EfuseDmeKeyTypeRejected KeyType then
      (XNVM_EFUSE_ERR_INVALID_PARAM, false)
    else if keyNull then
      (XNVM_EFUSE_ERR_INVALID_PARAM, false)
    else if dmeModeCacheVal ≠ 0 then
      (XNVM_EFUSE_ERR_DME_MODE_SET ||| XNVM_EFUSE_ERR_BEFORE_PROGRAMMING, false)
    else if env.setupStatus ≠ XST_SUCCESS then
      (env.setupStatus, true)
    else
      (prgmStatus, true)
  { status := if body.1 = XST_SUCCESS then
      XNvm_EfuseCloseController env.resetStatus env.disableStatus env.lockStatus
    else body.1,
    writeStatus := body.1,
    keyCheckRejected := XNvm_EfuseDmeKeyTypeRejected KeyType,
    setupCalled := body.2, closeCalls := 1 }

/-- Claim C2: every modelled public write entry point
(`XNvm_EfuseWriteAesKey`, `XNvm_EfuseWriteFipsInfo`,
`XNvm_EfuseWriteRevocationID`, `XNvm_EfuseWriteDmeUserKey`) runs the
controller close sequence exactly once on every return path — invalid
parameters, setup failure, before-programming failure, programming
failure, or success — and the returned status equals the write-path
status whenever that is an error, surfacing the close-path status only
when the write path succeeded. -/
theorem XNvm_EfuseWrite_close_once :
    (∀ KeyType keyNull env validateStatus prgmStatus,
      (XNvm_EfuseWriteAesKey KeyType keyNull env validateStatus prgmStatus).closeCalls = 1 ∧
      (XNvm_EfuseWriteAesKey KeyType keyNull env validateStatus prgmStatus).status =
        (if (XNvm_EfuseWriteAesKey KeyType keyNull env validateStatus prgmStatus).writeStatus =
            XST_SUCCESS then
          XNvm_EfuseCloseController env.resetStatus env.disableStatus env.lockStatus
        else
          (XNvm_EfuseWriteAesKey KeyType keyNull env validateStatus prgmStatus).writeStatus)) ∧
    (∀ EnvDisFlag FipsMode FipsVersion env validateStatus bitRes,
      (XNvm_EfuseWriteFipsInfo EnvDisFlag FipsMode FipsVersion env validateStatus bitRes).closeCalls = 1 ∧
      (XNvm_EfuseWriteFipsInfo EnvDisFlag FipsMode FipsVersion env validateStatus bitRes).status =
        (if (XNvm_EfuseWriteFipsInfo EnvDisFlag FipsMode FipsVersion env validateStatus bitRes).writeStatus =
            XST_SUCCESS then
          XNvm_EfuseCloseController env.resetStatus env.disableStatus env.lockStatus
        else
          (XNvm_EfuseWriteFipsInfo EnvDisFlag FipsMode FipsVersion env validateStatus bitRes).writeStatus)) ∧
    (∀ EnvDisFlag RevokeIdNum env bitRes,
      (XNvm_EfuseWriteRevocationID EnvDisFlag RevokeIdNum env bitRes).closeCalls = 1 ∧
      (XNvm_EfuseWriteRevocationID EnvDisFlag RevokeIdNum env bitRes).status =
        (if (XNvm_EfuseWriteRevocationID EnvDisFlag RevokeIdNum env bitRes).writeStatus =
            XST_SUCCESS then
          XNvm_EfuseCloseController env.resetStatus env.disableStatus env.lockStatus
        else
          (XNvm_EfuseWriteRevocationID EnvDisFlag RevokeIdNum env bitRes).writeStatus)) ∧
    (∀ KeyType keyNull dmeModeCacheVal env prgmStatus,
      (XNvm_EfuseWriteDmeUserKey KeyType keyNull dmeModeCacheVal env prgmStatus).closeCalls = 1 ∧
      (XNvm_EfuseWriteDmeUserKey KeyType keyNull dmeModeCacheVal env prgmStatus).status =
        (if (XNvm_EfuseWriteDmeUserKey KeyType keyNull dmeModeCacheVal env prgmStatus).writeStatus =
            XST_SUCCESS then
          XNvm_EfuseCloseController env.resetStatus env.disableStatus env.lockStatus
        else
          (XNvm_EfuseWriteDmeUserKey KeyType keyNull dmeModeCacheVal env prgmStatus).writeStatus)) ∧
    (∀ KeyType keyNull env validateStatus prgmStatus,
      ((KeyType ≠ XNVM_EFUSE_AES_KEY ∧ KeyType ≠ XNVM_EFUSE_USER_KEY_0 ∧
          KeyType ≠ XNVM_EFUSE_USER_KEY_1) →
        (XNvm_EfuseWriteAesKey KeyType keyNull env validateStatus prgmStatus).writeStatus =
          XNVM_EFUSE_ERR_INVALID_PARAM ∧
        (XNvm_EfuseWriteAesKey KeyType keyNull env validateStatus prgmStatus).setupCalled =
          false) ∧
      (¬ (KeyType ≠ XNVM_EFUSE_AES_KEY ∧ KeyType ≠ XNVM_EFUSE_USER_KEY_0 ∧
          KeyType ≠ XNVM_EFUSE_USER_KEY_1) →
        keyNull = true →
        (XNvm_EfuseWriteAesKey KeyType keyNull env validateStatus prgmStatus).writeStatus =
          XNVM_EFUSE_ERR_INVALID_PARAM ∧
        (XNvm_EfuseWriteAesKey KeyType keyNull env validateStatus prgmStatus).setupCalled =
          false) ∧
      (¬ (KeyType ≠ XNVM_EFUSE_AES_KEY ∧ KeyType ≠ XNVM_EFUSE_USER_KEY_0 ∧
          KeyType ≠ XNVM_EFUSE_USER_KEY_1) →
        keyNull = false → env.setupStatus ≠ XST_SUCCESS →
        (XNvm_EfuseWriteAesKey KeyType keyNull env validateStatus prgmStatus).writeStatus =
          env.setupStatus) ∧
      (¬ (KeyType ≠ XNVM_EFUSE_AES_KEY ∧ KeyType ≠ XNVM_EFUSE_USER_KEY_0 ∧
          KeyType ≠ XNVM_EFUSE_USER_KEY_1) →
        keyNull = false → env.setupStatus = XST_SUCCESS →
        validateStatus ≠ XST_SUCCESS →
        (XNvm_EfuseWriteAesKey KeyType keyNull env validateStatus prgmStatus).writeStatus =
          (validateStatus ||| XNVM_EFUSE_ERR_BEFORE_PROGRAMMING)) ∧
      (¬ (KeyType ≠ XNVM_EFUSE_AES_KEY ∧ KeyType ≠ XNVM_EFUSE_USER_KEY_0 ∧
          KeyType ≠ XNVM_EFUSE_USER_KEY_1) →
        keyNull = false → env.setupStatus = XST_SUCCESS →
        validateStatus = XST_SUCCESS →
        (XNvm_EfuseWriteAesKey KeyType keyNull env validateStatus prgmStatus).writeStatus =
          prgmStatus)) := by
  refine ⟨fun _ _ _ _ _ => ⟨rfl, rfl⟩, fun _ _ _ _ _ _ => ⟨rfl, rfl⟩,
    fun _ _ _ _ => ⟨rfl, rfl⟩, fun _ _ _ _ _ => ⟨rfl, rfl⟩, ?_⟩
  intro KeyType keyNull env validateStatus prgmStatus
  refine ⟨?_, ?_, ?_, ?_, ?_⟩
  · intro hk
    constructor <;> simp [XNvm_EfuseWriteAesKey, if_pos hk]
  · intro hk hnull
    subst hnull
    constructor <;> simp [XNvm_EfuseWriteAesKey, if_neg hk]
  · intro hk hnull hsetup
    subst hnull
    simp [XNvm_EfuseWriteAesKey, if_neg hk, hsetup]
  · intro hk hnull hsetup hval
    subst hnull
    simp [XNvm_EfuseWriteAesKey, if_neg hk, hsetup, hval]
  · intro hk hnull hsetup hval
    subst hnull
    simp [XNvm_EfuseWriteAesKey, if_neg hk, hsetup, hval]

/-- Witness for C2: with a valid key type, non-null key, successful
setup, validation and programming, and a close sequence whose lock step
fails with status 5, the close sequence runs once and its failure is
surfaced; with the same environment but a programming failure 7, the
write-path error 7 is preserved over the close error. -/
theorem XNvm_EfuseWrite_close_once_witness :
    (XNvm_EfuseWriteAesKey 0 false ⟨0, 0, 0, 5⟩ 0 0).closeCalls = 1 ∧
    (XNvm_EfuseWriteAesKey 0 false ⟨0, 0, 0, 5⟩ 0 0).status = 5 ∧
    (XNvm_EfuseWriteAesKey 0 false ⟨0, 0, 0, 5⟩ 0 7).status = 7 := by
  have h := XNvm_EfuseWrite_close_once
  refine ⟨(h.1 0 false ⟨0, 0, 0, 5⟩ 0 0).1, ?_, ?_⟩
  · rw [(h.1 0 false ⟨0, 0, 0, 5⟩ 0 0).2]
    decide
  · rw [(h.1 0 false ⟨0, 0, 0, 5⟩ 0 7).2]
    decide

/-- Claim C8: with environmental checks disabled, successful setup and
validation and all per-bit operations succeeding,
`XNvm_EfuseWriteFipsInfo` with mode `0x05` and version `0x3` reaches the
FIPS programming stage, programs the FIPS mode bits through the range
programmer (the full mode window is walked successfully) and then
issues exactly the two single-bit program/verify operations for version
bits 0 and 1; with version `0x07` exactly three version-bit operations
are issued; and any call with `FipsVersion > 7` or `FipsMode > 0xFF`
returns the invalid-parameter status without opening the hardware
session. -/
theorem XNvm_EfuseWriteFipsInfo_scenario (env : SessionEnv)
    (validateStatus : Nat) (bitRes : Nat → Nat → Nat)
    (hsetup : env.setupStatus = XST_SUCCESS)
    (hval : validateStatus = XST_SUCCESS)
    (hbit : ∀ r c, bitRes r c = XST_SUCCESS) :
    ((XNvm_EfuseWriteFipsInfo 1 0x05 0x3 env validateStatus bitRes).writeStatus =
        XST_SUCCESS ∧
      (XNvm_EfuseWriteFipsInfo 1 0x05 0x3 env validateStatus bitRes).prgm =
        some (XNvm_EfusePrgmFipsInfo 0x05 0x3 bitRes)) ∧
    ((XNvm_EfusePrgmFipsInfo 0x05 0x3 bitRes).modeWalk.status = XST_SUCCESS ∧
      (XNvm_EfusePrgmFipsInfo 0x05 0x3 bitRes).modeWalk.st.visits.length =
        XNVM_EFUSE_FIPS_MODE_END_COL_NUM - XNVM_EFUSE_FIPS_MODE_START_COL_NUM + 1 ∧
      (XNvm_EfusePrgmFipsInfo 0x05 0x3 bitRes).versionOps =
        [(XNVM_EFUSE_IP_DISABLE_ROW, XNVM_EFUSE_FIPS_VERSION_COL_0_NUM),
         (XNVM_EFUSE_IP_DISABLE_ROW, XNVM_EFUSE_FIPS_VERSION_COL_1_NUM)]) ∧
    ((XNvm_EfusePrgmFipsInfo 0x05 0x7 bitRes).versionOps =
      [(XNVM_EFUSE_IP_DISABLE_ROW, XNVM_EFUSE_FIPS_VERSION_COL_0_NUM),
       (XNVM_EFUSE_IP_DISABLE_ROW, XNVM_EFUSE_FIPS_VERSION_COL_1_NUM),
       (XNVM_EFUSE_IP_DISABLE_ROW, XNVM_EFUSE_FIPS_VERSION_COL_2_NUM)]) ∧
    (∀ f m v, v > XNVM_EFUSE_MAX_FIPS_VERSION ∨ m > XNVM_EFUSE_MAX_FIPS_MODE →
      (XNvm_EfuseWriteFipsInfo f m v env validateStatus bitRes).status =
        XNVM_EFUSE_ERR_INVALID_PARAM ∧
      (XNvm_EfuseWriteFipsInfo f m v env validateStatus bitRes).setupCalled =
        false) := by
  have hwalk5 := XNvm_EfusePgmAndVerifyData_walk
    { StartRow := XNVM_EFUSE_DME_FIPS_ROW,
      ColStart := XNVM_EFUSE_FIPS_MODE_START_COL_NUM,
      ColEnd := XNVM_EFUSE_FIPS_MODE_END_COL_NUM,
      NumOfRows := XNVM_EFUSE_DME_FIPS_NUM_OF_ROWS,
      SkipVerify := XNVM_EFUSE_PROGRAM_VERIFY,
      EfuseType := XNVM_EFUSE_PAGE_0 }
    (fun i => if i = 0 then 0x05 else 0) bitRes (Or.inl rfl) (by decide)
    (by decide) hbit
  have hP3 : XNvm_EfusePrgmFipsInfo 0x05 0x3 bitRes =
      { status := XST_SUCCESS,
        modeWalk := XNvm_EfusePgmAndVerifyData
          { StartRow := XNVM_EFUSE_DME_FIPS_ROW,
            ColStart := XNVM_EFUSE_FIPS_MODE_START_COL_NUM,
            ColEnd := XNVM_EFUSE_FIPS_MODE_END_COL_NUM,
            NumOfRows := XNVM_EFUSE_DME_FIPS_NUM_OF_ROWS,
            SkipVerify := XNVM_EFUSE_PROGRAM_VERIFY,
            EfuseType := XNVM_EFUSE_PAGE_0 }
          (some fun i => if i = 0 then 0x05 else 0) bitRes,
        versionOps :=
          [(XNVM_EFUSE_IP_DISABLE_ROW, XNVM_EFUSE_FIPS_VERSION_COL_0_NUM),
           (XNVM_EFUSE_IP_DISABLE_ROW, XNVM_EFUSE_FIPS_VERSION_COL_1_NUM)] } := by
    simp only [XNvm_EfusePrgmFipsInfo]
    rw [if_neg (fun hc => hc hwalk5.1), if_neg (fun hc => hc.2 (hbit _ _)),
      if_neg (fun hc => hc.2 (hbit _ _)),
      if_neg (fun hc => absurd hc.1 (by decide))]
    rfl
  have hP7 : XNvm_EfusePrgmFipsInfo 0x05 0x7 bitRes =
      { status := XST_SUCCESS,
        modeWalk := XNvm_EfusePgmAndVerifyData
          { StartRow := XNVM_EFUSE_DME_FIPS_ROW,
            ColStart := XNVM_EFUSE_FIPS_MODE_START_COL_NUM,
            ColEnd := XNVM_EFUSE_FIPS_MODE_END_COL_NUM,
            NumOfRows := XNVM_EFUSE_DME_FIPS_NUM_OF_ROWS,
            SkipVerify := XNVM_EFUSE_PROGRAM_VERIFY,
            EfuseType := XNVM_EFUSE_PAGE_0 }
          (some fun i => if i = 0 then 0x05 else 0) bitRes,
        versionOps :=
          [(XNVM_EFUSE_IP_DISABLE_ROW, XNVM_EFUSE_FIPS_VERSION_COL_0_NUM),
           (XNVM_EFUSE_IP_DISABLE_ROW, XNVM_EFUSE_FIPS_VERSION_COL_1_NUM),
           (XNVM_EFUSE_IP_DISABLE_ROW, XNVM_EFUSE_FIPS_VERSION_COL_2_NUM)] } := by
    simp only [XNvm_EfusePrgmFipsInfo]
    rw [if_neg (fun hc => hc hwalk5.1), if_neg (fun hc => hc.2 (hbit _ _)),
      if_neg (fun hc => hc.2 (hbit _ _)), if_neg (fun hc => hc.2 (hbit _ _))]
    rfl
  refine ⟨⟨?_, ?_⟩, ⟨?_, ?_, ?_⟩, ?_, ?_⟩
  · show (XNvm_EfuseWriteFipsInfo 1 0x05 0x3 env validateStatus bitRes).writeStatus =
      XST_SUCCESS
    simp only [XNvm_EfuseWriteFipsInfo]
    rw [if_neg (by decide), if_neg (by decide), if_neg (fun hc => hc hsetup),
      if_neg (fun hc => hc hval)]
    rw [show ((XNvm_EfusePrgmFipsInfo 0x05 0x3 bitRes).status, true,
        some (XNvm_EfusePrgmFipsInfo 0x05 0x3 bitRes)).1 =
        (XNvm_EfusePrgmFipsInfo 0x05 0x3 bitRes).status from rfl, hP3]
  · simp only [XNvm_EfuseWriteFipsInfo]
    rw [if_neg (by decide), if_neg (by decide), if_neg (fun hc => hc hsetup),
      if_neg (fun hc => hc hval)]
  · rw [hP3]
    exact hwalk5.1
  · rw [hP3]
    show (XNvm_EfusePgmAndVerifyData _ (some fun i => if i = 0 then 0x05 else 0)
      bitRes).st.visits.length =
      XNVM_EFUSE_FIPS_MODE_END_COL_NUM - XNVM_EFUSE_FIPS_MODE_START_COL_NUM + 1
    rw [hwalk5.2.2.1]
    decide
  · rw [hP3]
  · rw [hP7]
  · intro f m v hfm
    by_cases hv : v > XNVM_EFUSE_MAX_FIPS_VERSION
    · constructor
      · simp only [XNvm_EfuseWriteFipsInfo]
        rw [if_pos hv]
        rw [if_neg (by decide)]
      · simp only [XNvm_EfuseWriteFipsInfo]
        rw [if_pos hv]
    · have hm : m > XNVM_EFUSE_MAX_FIPS_MODE := by
        rcases hfm with h | h
        · exact absurd h hv
        · exact h
      constructor
      · simp only [XNvm_EfuseWriteFipsInfo]
        rw [if_neg hv, if_pos hm]
        rw [if_neg (by decide)]
      · simp only [XNvm_EfuseWriteFipsInfo]
        rw [if_neg hv, if_pos hm]

/-- Witness for C8: with an all-success environment, the mode 0x05 /
version 0x3 write reaches success, two version bits are programmed, and
with version 0x07 three are. -/
theorem XNvm_EfuseWriteFipsInfo_scenario_witness :
    (XNvm_EfuseWriteFipsInfo 1 0x05 0x3 ⟨0, 0, 0, 0⟩ 0
      (fun _ _ => 0)).writeStatus = XST_SUCCESS ∧
    (XNvm_EfusePrgmFipsInfo 0x05 0x3 (fun _ _ => 0)).versionOps.length = 2 ∧
    (XNvm_EfusePrgmFipsInfo 0x05 0x7 (fun _ _ => 0)).versionOps.length = 3 := by
  have h := XNvm_EfuseWriteFipsInfo_scenario ⟨0, 0, 0, 0⟩ 0 (fun _ _ => 0)
    rfl rfl (fun _ _ => rfl)
  refine ⟨h.1.1, ?_, ?_⟩
  · rw [h.2.1.2.2]
    decide
  · rw [h.2.2.1]
    decide

/-- Claim C9: with a successful setup, `XNvm_EfuseWriteRevocationID`
programs exactly the single bit at
`(baseRow + (id-1)/8, baseCol + (id-1)%8)`, using the low-range base for
ids 1..128 and the high-range base for ids 129 and above; id 0 and ids
above the maximum return the invalid-parameter status with no bit
programmed. -/
theorem XNvm_EfuseWriteRevocationID_mapping (EnvDisFlag RevokeIdNum : Nat)
    (env : SessionEnv) (bitRes : Nat → Nat → Nat)
    (hsetup : env.setupStatus = XST_SUCCESS) :
    (1 ≤ RevokeIdNum → RevokeIdNum ≤ 128 →
      (XNvm_EfuseWriteRevocationID EnvDisFlag RevokeIdNum env bitRes).pgmOps =
        [(XNVM_EFUSE_REVOKE_ID_0_TO_127_START_ROW + (RevokeIdNum - 1) / 8,
          XNVM_EFUSE_REVOKE_ID_0_TO_127_START_COL_NUM + (RevokeIdNum - 1) % 8)]) ∧
    (129 ≤ RevokeIdNum → RevokeIdNum ≤ XNVM_MAX_REVOKE_ID_FUSES →
      (XNvm_EfuseWriteRevocationID EnvDisFlag RevokeIdNum env bitRes).pgmOps =
        [(XNVM_EFUSE_REVOKE_ID_128_TO_255_START_ROW + (RevokeIdNum - 1) / 8,
          XNVM_EFUSE_REVOKE_ID_128_TO_255_START_COL_NUM + (RevokeIdNum - 1) % 8)]) ∧
    ((RevokeIdNum = 0 ∨ RevokeIdNum > XNVM_MAX_REVOKE_ID_FUSES) →
      (XNvm_EfuseWriteRevocationID EnvDisFlag RevokeIdNum env bitRes).status =
        XNVM_EFUSE_ERR_INVALID_PARAM ∧
      (XNvm_EfuseWriteRevocationID EnvDisFlag RevokeIdNum env bitRes).pgmOps =
        []) := by
  refine ⟨?_, ?_, ?_⟩
  · intro h1 h128
    have hrange : ¬ (RevokeIdNum = 0 ∨ RevokeIdNum > XNVM_MAX_REVOKE_ID_FUSES) := by
      simp only [XNVM_MAX_REVOKE_ID_FUSES]
      omega
    have hbase : 1 ≤ RevokeIdNum ∧ RevokeIdNum ≤ 128 := ⟨h1, h128⟩
    simp only [XNvm_EfuseWriteRevocationID]
    rw [if_neg hrange, if_neg (fun hc => hc hsetup), if_pos hbase]
    rfl
  · intro h129 hmax
    have hrange : ¬ (RevokeIdNum = 0 ∨ RevokeIdNum > XNVM_MAX_REVOKE_ID_FUSES) := by
      omega
    have hbase : ¬ (1 ≤ RevokeIdNum ∧ RevokeIdNum ≤ 128) := by omega
    simp only [XNvm_EfuseWriteRevocationID]
    rw [if_neg hrange, if_neg (fun hc => hc hsetup), if_neg hbase]
    rfl
  · intro h
    simp only [XNvm_EfuseWriteRevocationID]
    rw [if_pos h]
    refine ⟨?_, rfl⟩
    rw [if_neg (by decide)]

/-- Witness for C9: id 1 hits the low base itself, id 128 the low base
offset by `(15, 7)`, id 129 the high base offset by `(16, 0)`, and id 0
is rejected as an invalid parameter. -/
theorem XNvm_EfuseWriteRevocationID_mapping_witness :
    (XNvm_EfuseWriteRevocationID 1 1 ⟨0, 0, 0, 0⟩ (fun _ _ => 0)).pgmOps =
      [(XNVM_EFUSE_REVOKE_ID_0_TO_127_START_ROW,
        XNVM_EFUSE_REVOKE_ID_0_TO_127_START_COL_NUM)] ∧
    (XNvm_EfuseWriteRevocationID 1 128 ⟨0, 0, 0, 0⟩ (fun _ _ => 0)).pgmOps =
      [(XNVM_EFUSE_REVOKE_ID_0_TO_127_START_ROW + 15,
        XNVM_EFUSE_REVOKE_ID_0_TO_127_START_COL_NUM + 7)] ∧
    (XNvm_EfuseWriteRevocationID 1 129 ⟨0, 0, 0, 0⟩ (fun _ _ => 0)).pgmOps =
      [(XNVM_EFUSE_REVOKE_ID_128_TO_255_START_ROW + 16,
        XNVM_EFUSE_REVOKE_ID_128_TO_255_START_COL_NUM)] ∧
    (XNvm_EfuseWriteRevocationID 1 0 ⟨0, 0, 0, 0⟩ (fun _ _ => 0)).status =
      XNVM_EFUSE_ERR_INVALID_PARAM := by
  have h1 := XNvm_EfuseWriteRevocationID_mapping 1 1 ⟨0, 0, 0, 0⟩ (fun _ _ => 0) rfl
  have h128 := XNvm_EfuseWriteRevocationID_mapping 1 128 ⟨0, 0, 0, 0⟩ (fun _ _ => 0) rfl
  have h129 := XNvm_EfuseWriteRevocationID_mapping 1 129 ⟨0, 0, 0, 0⟩ (fun _ _ => 0) rfl
  have h0 := XNvm_EfuseWriteRevocationID_mapping 1 0 ⟨0, 0, 0, 0⟩ (fun _ _ => 0) rfl
  refine ⟨?_, ?_, ?_, (h0.2.2 (Or.inl rfl)).1⟩
  · rw [h1.1 (by decide) (by decide)]
    decide
  · rw [h128.1 (by decide) (by decide)]
  · rw [h129.2.1 (by decide) (by decide)]
    decide

/-- Claim C10: the irregularly parenthesized DME key-type check of
`XNvm_EfuseWriteDmeUserKey` is logically equivalent to the plain
enum-membership test for `DME_USER_KEY_0..3`; the function's write path
returns the invalid-parameter status whenever the check rejects, and for
every accepted key type (with a non-null key) the write path proceeds to
the same continuation — no valid key type is rejected at this check. -/
theorem XNvm_EfuseWriteDmeUserKey_keyTypeCheck (KeyType : Nat) :
    (XNvm_EfuseDmeKeyTypeRejected KeyType = true ↔
      ¬ (KeyType = XNVM_EFUSE_DME_USER_KEY_0 ∨
         KeyType = XNVM_EFUSE_DME_USER_KEY_1 ∨
         KeyType = XNVM_EFUSE_DME_USER_KEY_2 ∨
         KeyType = XNVM_EFUSE_DME_USER_KEY_3)) ∧
    (∀ keyNull dmeModeCacheVal env prgmStatus,
      (XNvm_EfuseWriteDmeUserKey KeyType keyNull dmeModeCacheVal env
        prgmStatus).keyCheckRejected = XNvm_EfuseDmeKeyTypeRejected KeyType) ∧
    (XNvm_EfuseDmeKeyTypeRejected KeyType = true →
      ∀ keyNull dmeModeCacheVal env prgmStatus,
        (XNvm_EfuseWriteDmeUserKey KeyType keyNull dmeModeCacheVal env
          prgmStatus).writeStatus = XNVM_EFUSE_ERR_INVALID_PARAM) ∧
    (XNvm_EfuseDmeKeyTypeRejected KeyType = false →
      ∀ dmeModeCacheVal env prgmStatus,
        (XNvm_EfuseWriteDmeUserKey KeyType false dmeModeCacheVal env
          prgmStatus).writeStatus =
          (if dmeModeCacheVal ≠ 0 then
            XNVM_EFUSE_ERR_DME_MODE_SET ||| XNVM_EFUSE_ERR_BEFORE_PROGRAMMING
          else if env.setupStatus ≠ XST_SUCCESS then env.setupStatus
          else prgmStatus)) := by
  refine ⟨?_, fun _ _ _ _ => rfl, ?_, ?_⟩
  · simp only [XNvm_EfuseDmeKeyTypeRejected, Bool.and_eq_true, bne_iff_ne, ne_eq]
    tauto
  · intro hrej keyNull dmeModeCacheVal env prgmStatus
    simp only [XNvm_EfuseWriteDmeUserKey]
    rw [if_pos hrej]
  · intro hrej dmeModeCacheVal env prgmStatus
    simp only [XNvm_EfuseWriteDmeUserKey]
    rw [if_neg (fun hc => Bool.false_ne_true (hrej ▸ hc)),
      if_neg Bool.false_ne_true]
    by_cases hd : dmeModeCacheVal ≠ 0
    · rw [if_pos hd, if_pos hd]
    · rw [if_neg hd, if_neg hd]
      by_cases hs : env.setupStatus ≠ XST_SUCCESS
      · rw [if_pos hs, if_pos hs]
      · rw [if_neg hs, if_neg hs]

/-- Witness for C10: key type 5 is rejected by the check and yields the
invalid-parameter write status; key type 3 (`DME_USER_KEY_3`) passes the
check and the write path reaches the programming stage, whose status 9
it returns. -/
theorem XNvm_EfuseWriteDmeUserKey_keyTypeCheck_witness :
    XNvm_EfuseDmeKeyTypeRejected 5 = true ∧
    (XNvm_EfuseWriteDmeUserKey 5 false 0 ⟨0, 0, 0, 0⟩ 0).writeStatus =
      XNVM_EFUSE_ERR_INVALID_PARAM ∧
    XNvm_EfuseDmeKeyTypeRejected 3 = false ∧
    (XNvm_EfuseWriteDmeUserKey 3 false 0 ⟨0, 0, 0, 0⟩ 9).writeStatus = 9 := by
  have h5 := XNvm_EfuseWriteDmeUserKey_keyTypeCheck 5
  have h3 := XNvm_EfuseWriteDmeUserKey_keyTypeCheck 3
  have hrej5 : XNvm_EfuseDmeKeyTypeRejected 5 = true :=
    h5.1.mpr (by decide)
  have hrej3 : XNvm_EfuseDmeKeyTypeRejected 3 = false := by
    rcases hb : XNvm_EfuseDmeKeyTypeRejected 3 with _ | _
    · rfl
    · exact absurd (h3.1.mp hb) (fun hc => hc (Or.inr (Or.inr (Or.inr rfl))))
  refine ⟨hrej5, h5.2.2.1 hrej5 false 0 ⟨0, 0, 0, 0⟩ 0, hrej3, ?_⟩
  rw [h3.2.2.2 hrej3 0 ⟨0, 0, 0, 0⟩ 9]
  decide
